import Mathlib

/-!
Shallow embedding of the cluster-identity / cluster-listener / request-forwarding
core (vault/cluster.go) and proofs about the claims of its specification.

Modelling conventions:
- The encrypted storage barrier is a pair of typed slots, one per storage key the
  code touches (core/cluster/local/info and core/cluster/local/key), together with
  a sealed flag (barrier.Get fails exactly when the barrier is sealed) and a trace
  of the keys written by barrier.Put, used to observe which calls persist data.
- JSON marshalling is deterministic and injective, so a persisted record is
  modelled as the record itself wrapped in a json constructor; byte equality of
  persisted records coincides with record equality.  Undecodable bytes are
  modelled with a garbage constructor carrying an arbitrary tag.
- Randomness (uuid generation, key generation, serial numbers, the current time)
  is an explicit Entropy argument to setupCluster, standing for the values the
  random sources would produce during the call.
- Cryptographic and encoding primitives that cannot fail on the inputs the code
  ever gives them (json.Marshal of a well-formed struct, x509.CreateCertificate
  with a valid template and key, GenerateForwardedRequest) are modelled as total
  functions; barrier.Put on an unsealed barrier likewise always succeeds.
- Goroutines, locks and channels are modelled with single-threaded semantics:
  channel fields of the Core become Bool flags recording whether the channel is
  non-nil, and the double-checked locking of refreshRequestForwardingConnection
  collapses to its sequential meaning.  Network sends of ForwardRequest are
  modelled by returning the list of requests that would be put on the wire.
-/

/-- Errors returned by the embedded operations, mirroring the error values of
the Go code.  invalidKeyMaterial carries the exact Go message so the two
distinct key-material failures stay distinguishable. -/
inductive CErr where
  | storageUnavailable
  | decodeFailed
  | certParseFailed
  | invalidKeyMaterial (msg : String)
  | noPrivateKey
  | noIdentity
  | cannotForward
  | alreadyRunning
  | notConfigured
  | listenerSetupFailed (code : Nat)
deriving DecidableEq

/-- The single supported private key algorithm tag (corePrivateKeyTypeP521). -/
def p521TypeName : String := "p521"

/-- Go message for key material with a missing component. -/
def errKeyParseMsg : String := "failed to parse local cluster key"

/-- Go message for key material with an unrecognized algorithm tag. -/
def errKeyTypeMsg : String := "failed to find valid local cluster key type"

/-- A P-521 ECDSA private key, given by its raw components (X, Y, D). -/
structure ECKey where
  x : Int
  y : Int
  d : Int
deriving DecidableEq

/-- The persisted key-material record (privKeyParams): an algorithm tag and
optional big-integer components, each of which may be absent (nil). -/
structure PrivKeyParams where
  type : String
  x : Option Int
  y : Option Int
  d : Option Int
deriving DecidableEq

/-- Extended key usages that appear in the generated certificate template. -/
inductive ExtKeyUsage where
  | serverAuth
  | clientAuth
deriving DecidableEq

def keyUsageDigitalSignature : Nat := 1
def keyUsageKeyEncipherment : Nat := 4
def keyUsageKeyAgreement : Nat := 16
def keyUsageCertSign : Nat := 32

/-- The information content of an X.509 certificate that the code reads or
sets: subject and issuer common name, DNS names, usages, serial, validity
window (seconds), and CA flags.  Times are integer Unix seconds. -/
structure CertData where
  subjectCommonName : String
  issuerCommonName : String
  dnsNames : List String
  extKeyUsage : List ExtKeyUsage
  keyUsage : Nat
  serialNumber : Int
  notBefore : Int
  notAfter : Int
  basicConstraintsValid : Bool
  isCA : Bool
deriving DecidableEq

/-- DER certificate bytes: either a well-formed encoding of some certificate
data (ParseCertificate succeeds and recovers it) or unparseable bytes. -/
inductive CertBytes where
  | der (cd : CertData)
  | garbage (tag : Nat)
deriving DecidableEq

/-- The persisted cluster information record (Go struct Cluster): name, id and
optional certificate bytes (none models both a nil and an empty byte slice). -/
structure Cluster where
  name : String
  id : String
  certificate : Option CertBytes
deriving DecidableEq

/-- Bytes stored at the cluster-info key: a decodable Cluster record or
undecodable bytes. -/
inductive InfoBytes where
  | json (cl : Cluster)
  | garbage (tag : Nat)
deriving DecidableEq

/-- Bytes stored at the cluster-key key: a decodable privKeyParams record or
undecodable bytes. -/
inductive KeyBytes where
  | json (p : PrivKeyParams)
  | garbage (tag : Nat)
deriving DecidableEq

/-- The two storage keys the code writes, for the write trace. -/
inductive StoragePath where
  | localClusterInfo
  | localClusterKey
deriving DecidableEq

/-- The storage barrier: sealed flag, the two slots used by this code, and the
trace of keys written so far (barrier.Put appends). -/
structure Barrier where
  sealed : Bool
  info : Option InfoBytes
  keyEntry : Option KeyBytes
  trace : List StoragePath
deriving DecidableEq

/-- One entry of a TLS Certificates list: a certificate chain plus the private
key presented with it. -/
structure TLSCertEntry where
  certificateChain : List CertBytes
  privateKey : Option ECKey
deriving DecidableEq

inductive ClientAuthType where
  | noClientCert
  | requireAndVerifyClientCert
deriving DecidableEq

/-- The fields of tls.Config that ClusterTLSConfig sets. -/
structure TLSConf where
  certificates : List TLSCertEntry
  rootCAs : List CertData
  serverName : String
  clientAuth : ClientAuthType
  clientCAs : List CertData
  nextProtos : List String
deriving DecidableEq

/-- The active request-forwarding connection: the HTTP client (identified by
the TLS configuration its transport was built with) and the stored cluster
address of the active node. -/
structure ActiveConnection where
  client : TLSConf
  clusterAddr : String
deriving DecidableEq

/-- An inbound request to be forwarded (method, target, body suffice to stand
for an arbitrary request). -/
structure Request where
  method : String
  url : String
  body : String
deriving DecidableEq

/-- The re-addressed copy of a request produced by GenerateForwardedRequest:
the original request plus the cluster address it is directed to. -/
structure ForwardedRequest where
  original : Request
  clusterAddr : String
deriving DecidableEq

/-- The response of the active node, determined by the forwarded request that
reached it. -/
structure HTTPResponse where
  servedFor : ForwardedRequest
deriving DecidableEq

/-- Outcome of the host-registered listener setup callback: an error code, or
raw listeners plus a handler (both opaque, identified by numbers). -/
inductive SetupOutcome where
  | fail (code : Nat)
  | ready (listeners : List Nat) (handler : Nat)
deriving DecidableEq

/-- The host-registered cluster listener setup callback, modelled by the result
it would return when invoked. -/
structure ClusterListenerSetup where
  result : SetupOutcome
deriving DecidableEq

/-- The random values drawn during one setupCluster call: the bytes of a
generated cluster name, a generated cluster id, a generated P-521 key, a
generated random host identifier for the certificate, a serial number, and the
current time in Unix seconds. -/
structure Entropy where
  nameBytes : String
  clusterID : String
  newKey : ECKey
  host : String
  serialNumber : Int
  now : Int
deriving DecidableEq

/-- The fields of Core that cluster.go reads or writes.  Channels become Bool
flags (true means the channel is non-nil), the listener setup func becomes an
optional data value, and the certificate pool a list of parsed certificates. -/
structure Core where
  barrier : Barrier
  clusterName : String
  localClusterPrivateKey : Option ECKey
  localClusterCertPool : List CertData
  advertiseAddr : String
  clusterListenerSetupFunc : Option ClusterListenerSetup
  clusterListenerShutdownCh : Bool
  clusterListenerShutdownSuccessCh : Bool
  requestForwardingConnection : Option ActiveConnection
deriving DecidableEq

/-- CertPool.AddCert, which the code relies on being idempotent. -/
def addCert (pool : List CertData) (cd : CertData) : List CertData :=
  if cd ∈ pool then pool else pool ++ [cd]

/-- barrier.Put at the cluster-info key: stores the marshalled record and
records the write in the trace. -/
def putClusterInfo (c : Core) (cl : Cluster) : Core :=
  { c with barrier := { c.barrier with
      info := some (.json cl)
      trace := c.barrier.trace ++ [.localClusterInfo] } }

/-- barrier.Put at the cluster-key key: stores the marshalled key params and
records the write in the trace. -/
def putClusterKey (c : Core) (p : PrivKeyParams) : Core :=
  { c with barrier := { c.barrier with
      keyEntry := some (.json p)
      trace := c.barrier.trace ++ [.localClusterKey] } }

/-- The auto-generated cluster name, vault-cluster- followed by the hex of four
random bytes. -/
def genClusterName (e : Entropy) : String :=
  "vault-cluster-" ++ e.nameBytes

/-- The certificate produced by the x509 template of setupCluster together
with CreateCertificate using the template as its own parent: subject and
issuer common name and the sole DNS name are the freshly generated random host
identifier, server-auth and client-auth extended usages, digital-signature,
key-encipherment, key-agreement and cert-sign key usages, validity from 30
seconds before now to 262980 hours (about 30 years) after now, and CA true. -/
def mkClusterCert (e : Entropy) : CertData :=
  { subjectCommonName := e.host
    issuerCommonName := e.host
    dnsNames := [e.host]
    extKeyUsage := [.serverAuth, .clientAuth]
    keyUsage := keyUsageDigitalSignature ||| keyUsageKeyEncipherment |||
      keyUsageKeyAgreement ||| keyUsageCertSign
    serialNumber := e.serialNumber
    notBefore := e.now - 30
    notAfter := e.now + 262980 * 3600
    basicConstraintsValid := true
    isCA := true }

/-- Core.Cluster (named getCluster here because the record type keeps the Go
name Cluster): reads the persisted cluster record, fails when the barrier is
sealed or the record or its certificate cannot be decoded, applies the
configured name override to the returned copy, and adds a stored certificate
to the trusted pool. -/
def Core.getCluster (c : Core) : Except CErr (Cluster × Core) :=
  if c.barrier.sealed = true then .error .storageUnavailable
  else
    match c.barrier.info with
    | none => .ok ({ name := "", id := "", certificate := none }, c)
    | some (.garbage _) => .error .decodeFailed
    | some (.json cl) =>
      let cl2 := if c.clusterName ≠ "" then { cl with name := c.clusterName } else cl
      match cl2.certificate with
      | none => .ok (cl2, c)
      | some (.der cd) =>
        .ok (cl2, { c with localClusterCertPool := addCert c.localClusterCertPool cd })
      | some (.garbage _) => .error .certParseFailed

/-- Intermediate state threaded through the steps of setupCluster. -/
structure SetupState where
  core : Core
  cluster : Cluster
  modified : Bool
  needNewCert : Bool
deriving DecidableEq

/-- setupCluster step: if the cluster name is empty, use the configured
override or generate one, record it on the Core, and mark modified. -/
def nameStep (e : Entropy) (s : SetupState) : SetupState :=
  if s.cluster.name = "" then
    let cn := if s.core.clusterName = "" then genClusterName e else s.core.clusterName
    { s with
      core := { s.core with clusterName := cn }
      cluster := { s.cluster with name := cn }
      modified := true }
  else s

/-- setupCluster step: if the cluster id is empty, generate a fresh one and
mark modified. -/
def idStep (e : Entropy) (s : SetupState) : SetupState :=
  if s.cluster.id = "" then
    { s with cluster := { s.cluster with id := e.clusterID }, modified := true }
  else s

/-- setupCluster step: if no private key is loaded, read the key-material
record; generate, persist and load a fresh key when it is absent (flagging
that a new certificate is needed), or decode and reconstruct the key,
failing when a component is missing or the algorithm tag is unrecognized. -/
def keyStep (e : Entropy) (s : SetupState) : Option CErr × SetupState :=
  match s.core.localClusterPrivateKey with
  | some _ => (none, s)
  | none =>
    if s.core.barrier.sealed = true then (some .storageUnavailable, s)
    else
      match s.core.barrier.keyEntry with
      | none =>
        let k := e.newKey
        let params : PrivKeyParams :=
          { type := p521TypeName, x := some k.x, y := some k.y, d := some k.d }
        (none, { s with
          core := { putClusterKey s.core params with localClusterPrivateKey := some k }
          needNewCert := true })
      | some (.garbage _) => (some .decodeFailed, s)
      | some (.json p) =>
        match p.x, p.y, p.d with
        | some x, some y, some d =>
          if p.type = p521TypeName then
            (none, { s with core := { s.core with localClusterPrivateKey := some ⟨x, y, d⟩ } })
          else (some (.invalidKeyMaterial errKeyTypeMsg), s)
        | _, _, _ => (some (.invalidKeyMaterial errKeyParseMsg), s)

/-- The condition under which setupCluster generates a certificate: a fresh
key was just generated or no certificate is stored, and a non-empty advertise
address is configured. -/
def certCond (s : SetupState) : Prop :=
  (s.needNewCert = true ∨ s.cluster.certificate = none) ∧ s.core.advertiseAddr ≠ ""

instance (s : SetupState) : Decidable (certCond s) := by
  unfold certCond; infer_instance

/-- setupCluster step: when certCond holds, generate a new self-signed
certificate with the in-memory private key and mark modified. -/
def certStep (e : Entropy) (s : SetupState) : Option CErr × SetupState :=
  if certCond s then
    match s.core.localClusterPrivateKey with
    | none => (some .noPrivateKey, s)
    | some _ =>
      (none, { s with
        cluster := { s.cluster with certificate := some (.der (mkClusterCert e)) }
        modified := true })
  else (none, s)

/-- setupCluster step: if anything was modified, persist the updated cluster
record in a single write. -/
def persistStep (s : SetupState) : Core :=
  if s.modified = true then putClusterInfo s.core s.cluster else s.core

/-- Core.setupCluster: ensure name, id, key material and certificate exist,
persisting whatever changed.  Returns the error (if any) and the Core as left
by the call. -/
def Core.setupCluster (c : Core) (e : Entropy) : Option CErr × Core :=
  match c.getCluster with
  | .error err => (some err, c)
  | .ok (cl, c1) =>
    let s2 := idStep e (nameStep e { core := c1, cluster := cl, modified := false, needNewCert := false })
    match keyStep e s2 with
    | (some err, s3) => (some err, s3.core)
    | (none, s3) =>
      match certStep e s3 with
      | (some err, s4) => (some err, s4.core)
      | (none, s4) => (none, persistStep s4)

/-- Core.ClusterTLSConfig: builds the mutual-TLS configuration from the stored
certificate and loaded private key; fails when no certificate is persisted. -/
def Core.ClusterTLSConfig (c : Core) : Except CErr (TLSConf × Core) :=
  match c.getCluster with
  | .error err => .error err
  | .ok (cl, c1) =>
    match cl.certificate with
    | none => .error .noIdentity
    | some certBytes =>
      match certBytes with
      | .garbage _ => .error .certParseFailed
      | .der cd =>
        .ok ({ certificates := [{ certificateChain := [certBytes], privateKey := c1.localClusterPrivateKey }]
               rootCAs := c1.localClusterCertPool
               serverName := cd.subjectCommonName
               clientAuth := .requireAndVerifyClientCert
               clientCAs := c1.localClusterCertPool
               nextProtos := ["h2"] }, c1)

/-- Core.SetClusterListenerSetupFunc. -/
def Core.SetClusterListenerSetupFunc (c : Core) (f : Option ClusterListenerSetup) : Core :=
  { c with clusterListenerSetupFunc := f }

/-- Core.startClusterListener: fails when the shutdown channel already exists
or no setup callback is registered; otherwise invokes the callback, obtains
the TLS config, creates both channels and starts one serving loop per
listener (returned as the third component). -/
def Core.startClusterListener (c : Core) : Option CErr × Core × List Nat :=
  if c.clusterListenerShutdownCh = true then (some .alreadyRunning, c, [])
  else
    match c.clusterListenerSetupFunc with
    | none => (some .notConfigured, c, [])
    | some f =>
      match f.result with
      | .fail n => (some (.listenerSetupFailed n), c, [])
      | .ready lns _handler =>
        match c.ClusterTLSConfig with
        | .error err => (some err, c, [])
        | .ok (_cfg, c1) =>
          (none, { c1 with
            clusterListenerShutdownCh := true
            clusterListenerShutdownSuccessCh := true }, lns)

/-- Core.stopClusterListener: closes and clears the shutdown channel if it
exists, and if the completion channel exists waits for it and clears it (the
deferred nil assignments of the Go code run at return in every path; the first
branch never touches the completion channel, so the two conditionals commute
into this nested form). -/
def Core.stopClusterListener (c : Core) : Core :=
  if c.clusterListenerShutdownCh = true then
    if c.clusterListenerShutdownSuccessCh = true then
      { c with clusterListenerShutdownCh := false, clusterListenerShutdownSuccessCh := false }
    else { c with clusterListenerShutdownCh := false }
  else
    if c.clusterListenerShutdownSuccessCh = true then
      { c with clusterListenerShutdownSuccessCh := false }
    else c

/-- One activation cycle: startClusterListener followed by stopClusterListener
on the resulting Core. -/
def startStopCycle (c : Core) : Core :=
  (c.startClusterListener).2.1.stopClusterListener

/-- Core.refreshRequestForwardingConnection, with the double-checked locking
collapsed to its single-threaded meaning: no change when the requested address
matches the current state, drop the connection on an empty address, create a
connection (using the TLS config) only when none exists, and otherwise update
only the stored address of the existing connection. -/
def Core.refreshRequestForwardingConnection (c : Core) (clusterAddr : String) :
    Option CErr × Core :=
  match c.requestForwardingConnection with
  | none =>
    if clusterAddr = "" then (none, c)
    else
      match c.ClusterTLSConfig with
      | .error err => (some err, c)
      | .ok (cfg, c1) =>
        (none, { c1 with requestForwardingConnection := some { client := cfg, clusterAddr := clusterAddr } })
  | some conn =>
    if conn.clusterAddr = clusterAddr then (none, c)
    else if clusterAddr = "" then (none, { c with requestForwardingConnection := none })
    else (none, { c with requestForwardingConnection := some { conn with clusterAddr := clusterAddr } })

/-- requestutil.GenerateForwardedRequest: a structurally equivalent copy of
the request re-addressed to the given cluster address. -/
def generateForwardedRequest (req : Request) (clusterAddr : String) : ForwardedRequest :=
  { original := req, clusterAddr := clusterAddr }

/-- Core.ForwardRequest: fails with cannotForward when there is no connection
or its address is empty; otherwise sends the re-addressed copy.  Returns the
result, the Core (never modified), and the list of requests put on the wire. -/
def Core.ForwardRequest (c : Core) (req : Request) :
    Except CErr HTTPResponse × Core × List ForwardedRequest :=
  match c.requestForwardingConnection with
  | none => (.error .cannotForward, c, [])
  | some conn =>
    if conn.clusterAddr = "" then (.error .cannotForward, c, [])
    else
      let freq := generateForwardedRequest req conn.clusterAddr
      (.ok { servedFor := freq }, c, [freq])

/-- The certificate bytes held by a stored info slot, if any. -/
def infoCert : Option InfoBytes → Option CertBytes
  | some (.json cl) => cl.certificate
  | _ => none

/-- A Core state on which setupCluster has nothing left to do: the barrier is
unsealed, a private key is loaded, the stored record decodes, its name is
non-empty unless masked by a configured override, its id is non-empty, its
certificate (if present) parses, and a missing certificate can only be due to
an empty advertise address.  Every successful setupCluster call leaves the
Core in such a state, and on such a state setupCluster writes nothing. -/
def Stable (c : Core) : Prop :=
  c.barrier.sealed = false ∧
  (∃ k, c.localClusterPrivateKey = some k) ∧
  ∃ cl, c.barrier.info = some (.json cl) ∧
    (c.clusterName = "" → cl.name ≠ "") ∧
    cl.id ≠ "" ∧
    (∀ t, cl.certificate ≠ some (.garbage t)) ∧
    (cl.certificate = none → c.advertiseAddr = "")

/-- A default core used to build the concrete states of the witnesses and
counterexamples below. -/
def baseCore : Core :=
  { barrier := { sealed := false, info := none, keyEntry := none, trace := [] }
    clusterName := ""
    localClusterPrivateKey := none
    localClusterCertPool := []
    advertiseAddr := ""
    clusterListenerSetupFunc := none
    clusterListenerShutdownCh := false
    clusterListenerShutdownSuccessCh := false
    requestForwardingConnection := none }

/-- A fixed entropy value for the concrete witnesses and counterexamples. -/
def entW : Entropy :=
  { nameBytes := "00c0ffee", clusterID := "id-2222", newKey := { x := 1, y := 2, d := 3 }
    host := "host-uuid-1", serialNumber := 7, now := 1000 }

/-- Concrete state for the C1 counterexample: a persisted record with
non-empty name A and non-empty id x and no certificate, a configured name
override B, a non-empty advertise address, and no key material yet. -/
def cexC1 : Core :=
  { baseCore with
    barrier := { baseCore.barrier with
      info := some (.json { name := "A", id := "x", certificate := none }) }
    clusterName := "B"
    advertiseAddr := "addr1" }

/-- Concrete state for the C4 counterexample: a persisted record whose
certificate field is non-empty but holds unparseable bytes. -/
def cexC4 : Core :=
  { baseCore with
    barrier := { baseCore.barrier with
      info := some (.json { name := "A", id := "x", certificate := some (.garbage 0) }) } }

/-- Concrete state for the C7 counterexample: the shutdown channel already
exists and no listener setup callback is registered. -/
def cexC7 : Core := { baseCore with clusterListenerShutdownCh := true }

/-- Concrete state for the C10 counterexample: no persisted certificate, an
empty advertise address, and undecodable stored key material. -/
def cexC10 : Core :=
  { baseCore with barrier := { baseCore.barrier with keyEntry := some (.garbage 0) } }

/-- Concrete stored key params used by the C9 witness. -/
def goodParams : PrivKeyParams := { type := p521TypeName, x := some 5, y := some 6, d := some 7 }

/-- Concrete state for the C9 witness: valid stored key material, no loaded
private key. -/
def witC9 : Core :=
  { baseCore with barrier := { baseCore.barrier with keyEntry := some (.json goodParams) } }

/-- Concrete state for the C3 witness: no stored record, no key material, and
a non-empty advertise address, so a fresh key and certificate are generated. -/
def witC3 : Core := { baseCore with advertiseAddr := "addr1" }

/-- Concrete connection and state for the C5 and C6 witnesses. -/
def connW : ActiveConnection :=
  { client := { certificates := [], rootCAs := [], serverName := "sn"
                clientAuth := .requireAndVerifyClientCert, clientCAs := [], nextProtos := ["h2"] }
    clusterAddr := "addr-active" }

def witC5 : Core := { baseCore with requestForwardingConnection := some connW }

/-- Concrete request for the C5 witness. -/
def reqW : Request := { method := "GET", url := "/v1/secret", body := "" }

/-- A second entropy value, different from entW, for the idempotence witness. -/
def entW2 : Entropy :=
  { nameBytes := "deadbeef", clusterID := "id-3333", newKey := { x := 11, y := 12, d := 13 }
    host := "host-uuid-2", serialNumber := 8, now := 2000 }

/-- The error keyStep produces for a given stored key slot when no private key
is loaded and the barrier is unsealed (none when the step succeeds). -/
def keyEntryErr : Option KeyBytes → Option CErr
  | none => none
  | some (.garbage _) => some .decodeFailed
  | some (.json p) =>
    match p.x, p.y, p.d with
    | some _, some _, some _ =>
      if p.type = p521TypeName then none else some (.invalidKeyMaterial errKeyTypeMsg)
    | _, _, _ => some (.invalidKeyMaterial errKeyParseMsg)

/-! ## Helper lemmas -/

theorem genClusterName_ne_empty (e : Entropy) : genClusterName e ≠ "" := by
  unfold genClusterName
  intro h
  have h2 : ("vault-cluster-" ++ e.nameBytes).length = (0 : Nat) := by
    rw [h]; rfl
  rw [String.length_append] at h2
  have h3 : "vault-cluster-".length = (14 : Nat) := rfl
  omega

theorem getCluster_shape {c : Core} {cl : Cluster} {c1 : Core}
    (h : c.getCluster = .ok (cl, c1)) :
    c.barrier.sealed = false ∧
    c1.barrier = c.barrier ∧
    c1.clusterName = c.clusterName ∧
    c1.localClusterPrivateKey = c.localClusterPrivateKey ∧
    c1.advertiseAddr = c.advertiseAddr ∧
    ((c.barrier.info = none ∧ cl = { name := "", id := "", certificate := none } ∧ c1 = c) ∨
     (∃ cl0, c.barrier.info = some (.json cl0) ∧
        cl.id = cl0.id ∧ cl.certificate = cl0.certificate ∧
        cl.name = (if c.clusterName ≠ "" then c.clusterName else cl0.name) ∧
        (∀ t, cl0.certificate ≠ some (.garbage t)))) := by
  unfold Core.getCluster at h
  by_cases hs : c.barrier.sealed = true
  · rw [if_pos hs] at h; cases h
  · rw [if_neg hs] at h
    simp only [Bool.not_eq_true] at hs
    rcases hinfo : c.barrier.info with _ | ib
    · rw [hinfo] at h
      simp only [Except.ok.injEq, Prod.mk.injEq] at h
      obtain ⟨hcl, hc1⟩ := h
      subst hc1
      exact ⟨hs, rfl, rfl, rfl, rfl, Or.inl ⟨rfl, hcl.symm, rfl⟩⟩
    · cases ib with
      | garbage t => rw [hinfo] at h; simp at h
      | json cl0 =>
        rw [hinfo] at h
        by_cases hov : c.clusterName = ""
        · simp only [hov, ne_eq, not_true_eq_false, if_false] at h
          rcases hcert : cl0.certificate with _ | cb
          · rw [hcert] at h
            simp only [Except.ok.injEq, Prod.mk.injEq] at h
            obtain ⟨hcl, hc1⟩ := h
            subst hc1
            refine ⟨hs, rfl, rfl, rfl, rfl, Or.inr ⟨cl0, rfl, ?_, ?_, ?_, ?_⟩⟩
            · rw [← hcl]
            · rw [← hcl]
            · rw [← hcl]; simp [hov]
            · intro t ht; rw [hcert] at ht; cases ht
          · cases cb with
            | garbage t => rw [hcert] at h; simp at h
            | der cd =>
              rw [hcert] at h
              simp only [Except.ok.injEq, Prod.mk.injEq] at h
              obtain ⟨hcl, hc1⟩ := h
              subst hc1
              refine ⟨hs, rfl, by simp [hov], rfl, rfl, Or.inr ⟨cl0, rfl, ?_, ?_, ?_, ?_⟩⟩
              · rw [← hcl]
              · rw [← hcl]
              · rw [← hcl]; simp [hov]
              · intro t ht; rw [hcert] at ht; cases ht
        · simp only [hov, ne_eq, not_false_eq_true, if_true] at h
          rcases hcert : cl0.certificate with _ | cb
          · rw [hcert] at h
            simp only [Except.ok.injEq, Prod.mk.injEq] at h
            obtain ⟨hcl, hc1⟩ := h
            subst hc1
            refine ⟨hs, rfl, rfl, rfl, rfl, Or.inr ⟨cl0, rfl, ?_, ?_, ?_, ?_⟩⟩
            · rw [← hcl]
            · rw [← hcl]; exact hcert.symm
            · rw [← hcl]; simp [hov]
            · intro t ht; rw [hcert] at ht; cases ht
          · cases cb with
            | garbage t => rw [hcert] at h; simp at h
            | der cd =>
              rw [hcert] at h
              simp only [Except.ok.injEq, Prod.mk.injEq] at h
              obtain ⟨hcl, hc1⟩ := h
              subst hc1
              refine ⟨hs, rfl, rfl, rfl, rfl, Or.inr ⟨cl0, rfl, ?_, ?_, ?_, ?_⟩⟩
              · rw [← hcl]
              · rw [← hcl]; exact hcert.symm
              · rw [← hcl]; simp [hov]
              · intro t ht; rw [hcert] at ht; cases ht

theorem nameStep_name_ne_empty (e : Entropy) (s : SetupState) :
    (nameStep e s).cluster.name ≠ "" := by
  unfold nameStep
  split
  · by_cases h : s.core.clusterName = "" <;> simp [h, genClusterName_ne_empty]
  · rename_i h; exact h

theorem nameStep_id (e : Entropy) (s : SetupState) :
    (nameStep e s).cluster.id = s.cluster.id := by
  unfold nameStep; split <;> rfl

theorem nameStep_cert (e : Entropy) (s : SetupState) :
    (nameStep e s).cluster.certificate = s.cluster.certificate := by
  unfold nameStep; split <;> rfl

theorem nameStep_barrier (e : Entropy) (s : SetupState) :
    (nameStep e s).core.barrier = s.core.barrier := by
  unfold nameStep; split <;> rfl

theorem nameStep_privKey (e : Entropy) (s : SetupState) :
    (nameStep e s).core.localClusterPrivateKey = s.core.localClusterPrivateKey := by
  unfold nameStep; split <;> rfl

theorem nameStep_addr (e : Entropy) (s : SetupState) :
    (nameStep e s).core.advertiseAddr = s.core.advertiseAddr := by
  unfold nameStep; split <;> rfl

theorem nameStep_needNewCert (e : Entropy) (s : SetupState) :
    (nameStep e s).needNewCert = s.needNewCert := by
  unfold nameStep; split <;> rfl

theorem nameStep_skip (e : Entropy) (s : SetupState) (h : s.cluster.name ≠ "") :
    nameStep e s = s := by
  unfold nameStep; rw [if_neg h]

theorem nameStep_not_modified (e : Entropy) (s : SetupState)
    (h : (nameStep e s).modified = false) : nameStep e s = s ∧ s.cluster.name ≠ "" := by
  unfold nameStep at *
  split at h
  · cases h
  · rename_i hn; exact ⟨by rw [if_neg hn], hn⟩

theorem idStep_id_ne_empty (e : Entropy) (s : SetupState) (hid : e.clusterID ≠ "") :
    (idStep e s).cluster.id ≠ "" := by
  unfold idStep
  split
  · simpa using hid
  · rename_i h; exact h

theorem idStep_name (e : Entropy) (s : SetupState) :
    (idStep e s).cluster.name = s.cluster.name := by
  unfold idStep; split <;> rfl

theorem idStep_cert (e : Entropy) (s : SetupState) :
    (idStep e s).cluster.certificate = s.cluster.certificate := by
  unfold idStep; split <;> rfl

theorem idStep_core (e : Entropy) (s : SetupState) :
    (idStep e s).core = s.core := by
  unfold idStep; split <;> rfl

theorem idStep_needNewCert (e : Entropy) (s : SetupState) :
    (idStep e s).needNewCert = s.needNewCert := by
  unfold idStep; split <;> rfl

theorem idStep_skip (e : Entropy) (s : SetupState) (h : s.cluster.id ≠ "") :
    idStep e s = s := by
  unfold idStep; rw [if_neg h]

theorem idStep_not_modified (e : Entropy) (s : SetupState)
    (h : (idStep e s).modified = false) : idStep e s = s ∧ s.cluster.id ≠ "" := by
  unfold idStep at *
  split at h
  · cases h
  · rename_i hn; exact ⟨by rw [if_neg hn], hn⟩

theorem keyStep_cluster (e : Entropy) (s : SetupState) :
    ((keyStep e s).2).cluster = s.cluster := by
  unfold keyStep
  split
  · rfl
  · split
    · rfl
    · split
      · rfl
      · rfl
      · split
        · split <;> rfl
        · rfl

theorem keyStep_modified (e : Entropy) (s : SetupState) :
    ((keyStep e s).2).modified = s.modified := by
  unfold keyStep
  split
  · rfl
  · split
    · rfl
    · split
      · rfl
      · rfl
      · split
        · split <;> rfl
        · rfl

theorem keyStep_info (e : Entropy) (s : SetupState) :
    ((keyStep e s).2).core.barrier.info = s.core.barrier.info := by
  unfold keyStep putClusterKey
  split
  · rfl
  · split
    · rfl
    · split
      · rfl
      · rfl
      · split
        · split <;> rfl
        · rfl

theorem keyStep_sealed (e : Entropy) (s : SetupState) :
    ((keyStep e s).2).core.barrier.sealed = s.core.barrier.sealed := by
  unfold keyStep putClusterKey
  split
  · rfl
  · split
    · rfl
    · split
      · rfl
      · rfl
      · split
        · split <;> rfl
        · rfl

theorem keyStep_clusterName (e : Entropy) (s : SetupState) :
    ((keyStep e s).2).core.clusterName = s.core.clusterName := by
  unfold keyStep putClusterKey
  split
  · rfl
  · split
    · rfl
    · split
      · rfl
      · rfl
      · split
        · split <;> rfl
        · rfl

theorem keyStep_addr (e : Entropy) (s : SetupState) :
    ((keyStep e s).2).core.advertiseAddr = s.core.advertiseAddr := by
  unfold keyStep putClusterKey
  split
  · rfl
  · split
    · rfl
    · split
      · rfl
      · rfl
      · split
        · split <;> rfl
        · rfl

theorem keyStep_ok_privKey (e : Entropy) (s : SetupState)
    (h : (keyStep e s).1 = none) :
    ∃ k, ((keyStep e s).2).core.localClusterPrivateKey = some k := by
  unfold keyStep at *
  split at h
  · rename_i k hk
    exact ⟨k, by simp_all⟩
  · split at h
    · cases h
    · split at h
      · exact ⟨e.newKey, by simp_all⟩
      · cases h
      · split at h
        · split at h
          · exact ⟨_, by simp_all; rfl⟩
          · cases h
        · cases h

theorem keyStep_error_state (e : Entropy) (s : SetupState) (err : CErr)
    (h : (keyStep e s).1 = some err) : (keyStep e s).2 = s := by
  unfold keyStep at *
  split at h
  · cases h
  · split at h
    · simp_all
    · split at h
      · cases h
      · simp_all
      · split at h
        · split at h
          · cases h
          · simp_all
        · simp_all

theorem keyStep_error_privKey (e : Entropy) (s : SetupState) (err : CErr)
    (h : (keyStep e s).1 = some err) : s.core.localClusterPrivateKey = none := by
  unfold keyStep at h
  split at h
  · cases h
  · rename_i hk; exact hk

theorem keyStep_skip (e : Entropy) (s : SetupState) (k : ECKey)
    (h : s.core.localClusterPrivateKey = some k) : keyStep e s = (none, s) := by
  unfold keyStep
  split
  · rfl
  · rename_i hn; rw [hn] at h; cases h

theorem keyStep_err_eval (e : Entropy) (s : SetupState)
    (h1 : s.core.localClusterPrivateKey = none) (h2 : s.core.barrier.sealed = false) :
    (keyStep e s).1 = keyEntryErr s.core.barrier.keyEntry := by
  unfold keyStep keyEntryErr
  split
  · rename_i k hk; rw [hk] at h1; cases h1
  · rw [if_neg (by rw [h2]; exact Bool.false_ne_true)]
    split
    · rfl
    · rfl
    · split
      · split <;> rfl
      · rename_i p x y d hx
        rfl

theorem certStep_core (e : Entropy) (s : SetupState) :
    ((certStep e s).2).core = s.core := by
  unfold certStep
  split
  · split <;> rfl
  · rfl

theorem certStep_name (e : Entropy) (s : SetupState) :
    ((certStep e s).2).cluster.name = s.cluster.name := by
  unfold certStep
  split
  · split <;> rfl
  · rfl

theorem certStep_id (e : Entropy) (s : SetupState) :
    ((certStep e s).2).cluster.id = s.cluster.id := by
  unfold certStep
  split
  · split <;> rfl
  · rfl

theorem certStep_error_state (e : Entropy) (s : SetupState) (err : CErr)
    (h : (certStep e s).1 = some err) :
    (certStep e s).2 = s ∧ s.core.localClusterPrivateKey = none := by
  unfold certStep at h ⊢
  by_cases hc : certCond s
  · rw [if_pos hc] at h ⊢
    split at h
    · rename_i hk
      refine ⟨?_, hk⟩
      simp [hk]
    · cases h
  · rw [if_neg hc] at h
    cases h

theorem certStep_ok_cert (e : Entropy) (s : SetupState)
    (h : (certStep e s).1 = none) :
    ((certStep e s).2.cluster.certificate = some (.der (mkClusterCert e)) ∧
       (certStep e s).2.modified = true ∧ certCond s) ∨
    ((certStep e s).2 = s ∧ ¬ certCond s) := by
  unfold certStep at h ⊢
  by_cases hc : certCond s
  · rw [if_pos hc] at h ⊢
    split at h
    · cases h
    · rename_i k hk
      left
      refine ⟨?_, ?_, hc⟩ <;> simp [hk]
  · rw [if_neg hc] at h ⊢
    exact Or.inr ⟨rfl, hc⟩

theorem certStep_skip (e : Entropy) (s : SetupState) (h : ¬ certCond s) :
    certStep e s = (none, s) := by
  unfold certStep
  rw [if_neg h]

theorem getCluster_eval {c : Core} {cl0 : Cluster} (hs : c.barrier.sealed = false)
    (hinfo : c.barrier.info = some (.json cl0))
    (hcg : ∀ t, cl0.certificate ≠ some (.garbage t)) :
    ∃ c1, c.getCluster =
        .ok ((if c.clusterName ≠ "" then { cl0 with name := c.clusterName } else cl0), c1) ∧
      c1.barrier = c.barrier ∧
      c1.localClusterPrivateKey = c.localClusterPrivateKey ∧
      c1.advertiseAddr = c.advertiseAddr ∧
      c1.clusterName = c.clusterName := by
  unfold Core.getCluster
  rw [if_neg (by rw [hs]; exact Bool.false_ne_true)]
  simp only [hinfo]
  rcases hcert : cl0.certificate with _ | cb
  · refine ⟨c, ?_, rfl, rfl, rfl, rfl⟩
    split
    · rfl
    · rename_i cd heq
      split at heq
      · cases heq
      · rw [hcert] at heq; cases heq
    · rename_i t heq
      split at heq
      · cases heq
      · rw [hcert] at heq; cases heq
  · cases cb with
    | garbage t => exact absurd hcert (hcg t)
    | der cd =>
      refine ⟨{ c with localClusterCertPool := addCert c.localClusterCertPool cd }, ?_, rfl, rfl, rfl, rfl⟩
      split
      · rename_i heq
        split at heq
        · cases heq
        · rw [hcert] at heq; cases heq
      · rename_i cd2 heq
        split at heq
        · cases heq; rfl
        · rw [hcert] at heq; cases heq; rfl
      · rename_i t heq
        split at heq
        · cases heq
        · rw [hcert] at heq; cases heq

theorem getCluster_eval_none {c : Core} (hs : c.barrier.sealed = false)
    (hinfo : c.barrier.info = none) :
    c.getCluster = .ok ({ name := "", id := "", certificate := none }, c) := by
  unfold Core.getCluster
  rw [if_neg (by rw [hs]; exact Bool.false_ne_true)]
  simp only [hinfo]

theorem preKey_core_barrier (e : Entropy) (s : SetupState) :
    (idStep e (nameStep e s)).core.barrier = s.core.barrier := by
  rw [idStep_core, nameStep_barrier]

theorem preKey_core_privKey (e : Entropy) (s : SetupState) :
    (idStep e (nameStep e s)).core.localClusterPrivateKey = s.core.localClusterPrivateKey := by
  rw [idStep_core, nameStep_privKey]

theorem preKey_core_addr (e : Entropy) (s : SetupState) :
    (idStep e (nameStep e s)).core.advertiseAddr = s.core.advertiseAddr := by
  rw [idStep_core, nameStep_addr]

theorem preKey_cert (e : Entropy) (s : SetupState) :
    (idStep e (nameStep e s)).cluster.certificate = s.cluster.certificate := by
  rw [idStep_cert, nameStep_cert]

theorem preKey_needNewCert (e : Entropy) (s : SetupState) :
    (idStep e (nameStep e s)).needNewCert = s.needNewCert := by
  rw [idStep_needNewCert, nameStep_needNewCert]

theorem setupCluster_key_error (c : Core) (e : Entropy) (err : CErr) {cl : Cluster} {c1 : Core}
    (hg : c.getCluster = .ok (cl, c1)) (hpk : c.localClusterPrivateKey = none)
    (herr : keyEntryErr c.barrier.keyEntry = some err) :
    c.setupCluster e =
      (some err, (idStep e (nameStep e { core := c1, cluster := cl, modified := false, needNewCert := false })).core) := by
  obtain ⟨hseal, hbar, _, hpriv, _, _⟩ := getCluster_shape hg
  have hpk2 : (idStep e (nameStep e { core := c1, cluster := cl, modified := false, needNewCert := false })).core.localClusterPrivateKey = none := by
    rw [preKey_core_privKey]
    show c1.localClusterPrivateKey = none
    rw [hpriv]; exact hpk
  have hsl2 : (idStep e (nameStep e { core := c1, cluster := cl, modified := false, needNewCert := false })).core.barrier.sealed = false := by
    rw [preKey_core_barrier]
    show c1.barrier.sealed = false
    rw [hbar]; exact hseal
  have hkv := keyStep_err_eval e
    (idStep e (nameStep e { core := c1, cluster := cl, modified := false, needNewCert := false })) hpk2 hsl2
  rw [preKey_core_barrier] at hkv
  have hkv2 : (keyStep e (idStep e (nameStep e { core := c1, cluster := cl, modified := false, needNewCert := false }))).1 = some err := by
    rw [hkv]
    show keyEntryErr c1.barrier.keyEntry = some err
    rw [hbar]; exact herr
  rcases hk : keyStep e (idStep e (nameStep e { core := c1, cluster := cl, modified := false, needNewCert := false })) with ⟨r, s3⟩
  rw [hk] at hkv2
  dsimp only at hkv2
  subst hkv2
  have h3 := keyStep_error_state e
    (idStep e (nameStep e { core := c1, cluster := cl, modified := false, needNewCert := false })) err (by rw [hk])
  rw [hk] at h3
  dsimp only at h3
  unfold Core.setupCluster
  rw [hg]
  dsimp only
  rw [hk]
  dsimp only
  rw [h3]

theorem setupCluster_error_barrier (c : Core) (e : Entropy) (err : CErr)
    (h : (c.setupCluster e).1 = some err) :
    (c.setupCluster e).2.barrier = c.barrier := by
  unfold Core.setupCluster at h ⊢
  cases hg : c.getCluster with
  | error err2 => rfl
  | ok p =>
    obtain ⟨cl, c1⟩ := p
    obtain ⟨hseal, hbar, _, _, _, _⟩ := getCluster_shape hg
    rw [hg] at h
    dsimp only at h ⊢
    rcases hk : keyStep e (idStep e (nameStep e { core := c1, cluster := cl, modified := false, needNewCert := false })) with ⟨r1 | err1, s3⟩
    · rw [hk] at h
      dsimp only at h
      dsimp only
      rcases hc : certStep e s3 with ⟨r2 | err2, s4⟩
      · rw [hc] at h
        dsimp only at h
        cases h
      · obtain ⟨k, hk2⟩ := keyStep_ok_privKey e _ (by rw [hk])
        rw [hk] at hk2
        dsimp only at hk2
        obtain ⟨_, hnone⟩ := certStep_error_state e s3 err2 (by rw [hc])
        rw [hnone] at hk2
        cases hk2
    · have h3 := keyStep_error_state e
        (idStep e (nameStep e { core := c1, cluster := cl, modified := false, needNewCert := false })) err1 (by rw [hk])
      rw [hk] at h3
      dsimp only at h3
      rw [h3, preKey_core_barrier]
      exact hbar

theorem setupCluster_error_repro (c : Core) (e1 e2 : Entropy) (err : CErr)
    (h : (c.setupCluster e1).1 = some err) :
    ∃ err2, ((c.setupCluster e1).2.setupCluster e2).1 = some err2 := by
  cases hg : c.getCluster with
  | error err0 =>
    have hr : c.setupCluster e1 = (some err0, c) := by
      unfold Core.setupCluster; rw [hg]
    refine ⟨err0, ?_⟩
    rw [hr]
    show (c.setupCluster e2).1 = some err0
    unfold Core.setupCluster
    rw [hg]
  | ok p =>
    obtain ⟨cl, c1⟩ := p
    obtain ⟨hseal, hbar, _, hpriv, _, hshape⟩ := getCluster_shape hg
    unfold Core.setupCluster at h
    rw [hg] at h
    dsimp only at h
    rcases hk : keyStep e1 (idStep e1 (nameStep e1 { core := c1, cluster := cl, modified := false, needNewCert := false })) with ⟨r1 | err1, s3⟩
    · rw [hk] at h
      dsimp only at h
      rcases hc : certStep e1 s3 with ⟨r2 | err2, s4⟩
      · rw [hc] at h
        dsimp only at h
        cases h
      · obtain ⟨k, hk2⟩ := keyStep_ok_privKey e1 _ (by rw [hk])
        rw [hk] at hk2
        dsimp only at hk2
        obtain ⟨_, hnone⟩ := certStep_error_state e1 s3 err2 (by rw [hc])
        rw [hnone] at hk2
        cases hk2
    · rw [hk] at h
      dsimp only at h
      injection h with h
      subst h
      have hpk1 : (idStep e1 (nameStep e1 { core := c1, cluster := cl, modified := false, needNewCert := false })).core.localClusterPrivateKey = none :=
        keyStep_error_privKey e1 _ err1 (by rw [hk])
      have hsl : (idStep e1 (nameStep e1 { core := c1, cluster := cl, modified := false, needNewCert := false })).core.barrier.sealed = false := by
        rw [preKey_core_barrier]
        show c1.barrier.sealed = false
        rw [hbar]; exact hseal
      have hkerr : keyEntryErr (idStep e1 (nameStep e1 { core := c1, cluster := cl, modified := false, needNewCert := false })).core.barrier.keyEntry = some err1 := by
        have h5 := keyStep_err_eval e1
          (idStep e1 (nameStep e1 { core := c1, cluster := cl, modified := false, needNewCert := false })) hpk1 hsl
        rw [hk] at h5
        dsimp only at h5
        exact h5.symm
      have hpost : (c.setupCluster e1).2 = s3.core := by
        unfold Core.setupCluster
        rw [hg]
        dsimp only
        rw [hk]
      have hs3 : s3 = idStep e1 (nameStep e1 { core := c1, cluster := cl, modified := false, needNewCert := false }) := by
        have h3 := keyStep_error_state e1
          (idStep e1 (nameStep e1 { core := c1, cluster := cl, modified := false, needNewCert := false })) err1 (by rw [hk])
        rw [hk] at h3
        dsimp only at h3
        exact h3
      have hpb : s3.core.barrier = c.barrier := by
        rw [hs3, preKey_core_barrier]; exact hbar
      have hppk : s3.core.localClusterPrivateKey = none := by
        rw [hs3]; exact hpk1
      have hpke : keyEntryErr s3.core.barrier.keyEntry = some err1 := by
        rw [hs3]; exact hkerr
      rcases hshape with ⟨hinfo, _, _⟩ | ⟨cl0, hinfo, _, _, _, hcg⟩
      · have hg2 := @getCluster_eval_none s3.core (by rw [hpb]; exact hseal) (by rw [hpb]; exact hinfo)
        have hkey := setupCluster_key_error s3.core e2 err1 hg2 hppk hpke
        refine ⟨err1, ?_⟩
        rw [hpost, hkey]
      · obtain ⟨c1b, hg2, _, _, _, _⟩ := @getCluster_eval s3.core cl0
          (by rw [hpb]; exact hseal) (by rw [hpb]; exact hinfo) hcg
        have hkey := setupCluster_key_error s3.core e2 err1 hg2 hppk hpke
        refine ⟨err1, ?_⟩
        rw [hpost, hkey]

theorem setupCluster_stable_noop (c : Core) (e : Entropy) (h : Stable c) :
    (c.setupCluster e).1 = none ∧ (c.setupCluster e).2.barrier = c.barrier := by
  obtain ⟨hs, ⟨k, hk⟩, cl0, hinfo, hname, hid, hcg, hca⟩ := h
  obtain ⟨c1, hg, hbar1, hpriv1, haddr1, hcn1⟩ := getCluster_eval hs hinfo hcg
  have hcc : (if c.clusterName ≠ "" then { cl0 with name := c.clusterName } else cl0).certificate
      = cl0.certificate := by split <;> rfl
  have hn2 : (if c.clusterName ≠ "" then { cl0 with name := c.clusterName } else cl0).name ≠ "" := by
    by_cases hov : c.clusterName = ""
    · rw [if_neg (by simpa using hov)]
      exact hname hov
    · rw [if_pos (by simpa using hov)]
      exact hov
  have hi2 : (if c.clusterName ≠ "" then { cl0 with name := c.clusterName } else cl0).id ≠ "" := by
    split <;> exact hid
  unfold Core.setupCluster
  rw [hg]
  dsimp only
  rw [nameStep_skip e _ hn2, idStep_skip e _ hi2]
  rw [keyStep_skip e _ k (by show c1.localClusterPrivateKey = some k; rw [hpriv1]; exact hk)]
  dsimp only
  rw [certStep_skip e _ ?hnc]
  case hnc =>
    intro hcond
    obtain ⟨hor, hadne⟩ := hcond
    rcases hor with hnnc | hcnone
    · exact absurd hnnc (by simp)
    · rw [hcc] at hcnone
      apply hadne
      show c1.advertiseAddr = ""
      rw [haddr1]
      exact hca hcnone
  dsimp only
  unfold persistStep
  rw [if_neg (by simp)]
  exact ⟨rfl, hbar1⟩

theorem setupCluster_ok_stable (c : Core) (e : Entropy) (hid : e.clusterID ≠ "")
    (h : (c.setupCluster e).1 = none) : Stable (c.setupCluster e).2 := by
  cases hg : c.getCluster with
  | error err0 =>
    unfold Core.setupCluster at h
    rw [hg] at h
    dsimp only at h
    cases h
  | ok p =>
    obtain ⟨cl, c1⟩ := p
    obtain ⟨hseal, hbar, hcn, hpriv, haddr, hshape⟩ := getCluster_shape hg
    unfold Core.setupCluster at h ⊢
    rw [hg] at h ⊢
    dsimp only at h ⊢
    rcases hk : keyStep e (idStep e (nameStep e { core := c1, cluster := cl, modified := false, needNewCert := false })) with ⟨r1 | err1, s3⟩
    · -- keyStep succeeded
      rw [hk] at h
      try dsimp only at h
      try dsimp only
      rcases hc : certStep e s3 with ⟨r2 | err2, s4⟩
      · -- certStep succeeded: post state is persistStep s4
        try dsimp only
        have hclu3 : s3.cluster = (idStep e (nameStep e { core := c1, cluster := cl, modified := false, needNewCert := false })).cluster := by
          have h5 := keyStep_cluster e (idStep e (nameStep e { core := c1, cluster := cl, modified := false, needNewCert := false }))
          rw [hk] at h5
          exact h5
        obtain ⟨k, hk3⟩ := keyStep_ok_privKey e _ (by rw [hk])
        rw [hk] at hk3
        dsimp only at hk3
        have hsl3 : s3.core.barrier.sealed = false := by
          have h5 := keyStep_sealed e (idStep e (nameStep e { core := c1, cluster := cl, modified := false, needNewCert := false }))
          rw [hk] at h5
          dsimp only at h5
          rw [h5, preKey_core_barrier]
          show c1.barrier.sealed = false
          rw [hbar]; exact hseal
        have hinfo3 : s3.core.barrier.info = c.barrier.info := by
          have h5 := keyStep_info e (idStep e (nameStep e { core := c1, cluster := cl, modified := false, needNewCert := false }))
          rw [hk] at h5
          dsimp only at h5
          rw [h5, preKey_core_barrier]
          show c1.barrier.info = c.barrier.info
          rw [hbar]
        have haddr3 : s3.core.advertiseAddr = c.advertiseAddr := by
          have h5 := keyStep_addr e (idStep e (nameStep e { core := c1, cluster := cl, modified := false, needNewCert := false }))
          rw [hk] at h5
          dsimp only at h5
          rw [h5, preKey_core_addr]
          show c1.advertiseAddr = c.advertiseAddr
          rw [haddr]
        have hcert4 := certStep_ok_cert e s3 (by rw [hc])
        rw [hc] at hcert4
        dsimp only at hcert4
        have hcore4 : s4.core = s3.core := by
          have h5 := certStep_core e s3
          rw [hc] at h5
          exact h5
        have hname4 : s4.cluster.name = s3.cluster.name := by
          have h5 := certStep_name e s3
          rw [hc] at h5
          exact h5
        have hid4 : s4.cluster.id = s3.cluster.id := by
          have h5 := certStep_id e s3
          rw [hc] at h5
          exact h5
        have hnn : s4.cluster.name ≠ "" := by
          rw [hname4, hclu3, idStep_name]
          exact nameStep_name_ne_empty e _
        have hni : s4.cluster.id ≠ "" := by
          rw [hid4, hclu3]
          exact idStep_id_ne_empty e _ hid
        unfold persistStep
        by_cases hm : s4.modified = true
        · rw [if_pos hm]
          refine ⟨?_, ⟨k, ?_⟩, s4.cluster, rfl, fun _ => hnn, hni, ?_, ?_⟩
          · show s4.core.barrier.sealed = false
            rw [hcore4]; exact hsl3
          · show s4.core.localClusterPrivateKey = some k
            rw [hcore4]; exact hk3
          · intro t ht
            rcases hcert4 with ⟨hcg4, _, _⟩ | ⟨heq34, _⟩
            · rw [hcg4] at ht; cases ht
            · rw [heq34, hclu3, preKey_cert] at ht
              rcases hshape with ⟨_, hclE, _⟩ | ⟨cl0, _, _, hcEq, _, hcg0⟩
              · rw [hclE] at ht; cases ht
              · rw [hcEq] at ht
                exact hcg0 t ht
          · intro hcn0
            show s4.core.advertiseAddr = ""
            rcases hcert4 with ⟨hcg4, _, _⟩ | ⟨heq34, hnc⟩
            · rw [hcg4] at hcn0; cases hcn0
            · by_contra haddrne
              apply hnc
              constructor
              · right
                rw [← heq34]
                exact hcn0
              · intro hz
                apply haddrne
                rw [hcore4, hz]
        · rw [if_neg hm]
          have hm0 : s4.modified = false := by
            rcases hb : s4.modified with _ | _
            · rfl
            · exact absurd hb hm
          rcases hcert4 with ⟨_, hmt, _⟩ | ⟨heq34, hnc⟩
          · exact absurd hmt hm
          have hm3 : s3.modified = false := by rw [← heq34]; exact hm0
          have hm2 : (idStep e (nameStep e { core := c1, cluster := cl, modified := false, needNewCert := false })).modified = false := by
            have h5 := keyStep_modified e (idStep e (nameStep e { core := c1, cluster := cl, modified := false, needNewCert := false }))
            rw [hk] at h5
            dsimp only at h5
            rw [← h5]
            exact hm3
          obtain ⟨hidEq, hidne2⟩ := idStep_not_modified e _ hm2
          have hm1 : (nameStep e { core := c1, cluster := cl, modified := false, needNewCert := false }).modified = false := by
            rw [hidEq] at hm2
            exact hm2
          obtain ⟨hnmEq, hnne⟩ := nameStep_not_modified e _ hm1
          have hs2pre : idStep e (nameStep e { core := c1, cluster := cl, modified := false, needNewCert := false }) = { core := c1, cluster := cl, modified := false, needNewCert := false } := by
            rw [hidEq, hnmEq]
          have hclcl : s3.cluster = cl := by
            rw [hclu3, hs2pre]
          have hidne3 : cl.id ≠ "" := by
            rw [hnmEq] at hidne2
            exact hidne2
          have hcn3 : s3.core.clusterName = c.clusterName := by
            have h5 := keyStep_clusterName e (idStep e (nameStep e { core := c1, cluster := cl, modified := false, needNewCert := false }))
            rw [hk] at h5
            dsimp only at h5
            rw [h5, hs2pre]
            exact hcn
          rcases hshape with ⟨hinfoN, hclEmpty, _⟩ | ⟨cl0, hinfoJ, hidEq0, hcertEq0, hnameEq0, hcg0⟩
          · rw [hclEmpty] at hnne
            exact absurd rfl hnne
          · refine ⟨?_, ⟨k, ?_⟩, cl0, ?_, ?_, ?_, hcg0, ?_⟩
            · show s4.core.barrier.sealed = false
              rw [hcore4]; exact hsl3
            · show s4.core.localClusterPrivateKey = some k
              rw [hcore4]; exact hk3
            · show s4.core.barrier.info = some (.json cl0)
              rw [hcore4, hinfo3, hinfoJ]
            · intro hcn0
              rw [hcore4, hcn3] at hcn0
              rw [hnameEq0, if_neg (by simpa using hcn0)] at hnne
              exact hnne
            · rw [← hidEq0]
              exact hidne3
            · intro hc0
              show s4.core.advertiseAddr = ""
              by_contra haddrne
              apply hnc
              constructor
              · right
                rw [hclcl, hcertEq0]
                exact hc0
              · intro hz
                apply haddrne
                rw [hcore4, hz]
      · -- certStep error: impossible, key is loaded
        obtain ⟨k, hk2⟩ := keyStep_ok_privKey e _ (by rw [hk])
        rw [hk] at hk2
        dsimp only at hk2
        obtain ⟨_, hnone⟩ := certStep_error_state e s3 err2 (by rw [hc])
        rw [hnone] at hk2
        cases hk2
    · -- keyStep error: contradicts success
      rw [hk] at h
      dsimp only at h
      cases h

theorem persistStep_keyEntry (s : SetupState) :
    (persistStep s).barrier.keyEntry = s.core.barrier.keyEntry := by
  unfold persistStep putClusterInfo
  split <;> rfl

theorem persistStep_privKey (s : SetupState) :
    (persistStep s).localClusterPrivateKey = s.core.localClusterPrivateKey := by
  unfold persistStep putClusterInfo
  split <;> rfl

theorem persistStep_sealed (s : SetupState) :
    (persistStep s).barrier.sealed = s.core.barrier.sealed := by
  unfold persistStep putClusterInfo
  split <;> rfl

theorem persistStep_clusterName (s : SetupState) :
    (persistStep s).clusterName = s.core.clusterName := by
  unfold persistStep putClusterInfo
  split <;> rfl

theorem setupCluster_ok_getCluster (c : Core) (e : Entropy)
    (h : (c.setupCluster e).1 = none) : ∃ cl c1, c.getCluster = .ok (cl, c1) := by
  unfold Core.setupCluster at h
  cases hg : c.getCluster with
  | error err0 =>
    rw [hg] at h
    dsimp only at h
    cases h
  | ok p =>
    obtain ⟨cl, c1⟩ := p
    exact ⟨cl, c1, rfl⟩

theorem keyStep_gen (e : Entropy) (s : SetupState)
    (hp : s.core.localClusterPrivateKey = none) (hs : s.core.barrier.sealed = false)
    (hke : s.core.barrier.keyEntry = none) :
    keyStep e s = (none, { s with
      core := { putClusterKey s.core
          { type := p521TypeName, x := some e.newKey.x, y := some e.newKey.y, d := some e.newKey.d } with
        localClusterPrivateKey := some e.newKey }
      needNewCert := true }) := by
  unfold keyStep
  split
  · rename_i k hk
    rw [hk] at hp; cases hp
  · rw [if_neg (by rw [hs]; exact Bool.false_ne_true)]
    split
    · rfl
    · rename_i t heq
      rw [hke] at heq; cases heq
    · rename_i p heq
      rw [hke] at heq; cases heq

theorem keyStep_load (e : Entropy) (s : SetupState) (x y d : Int)
    (hp : s.core.localClusterPrivateKey = none) (hs : s.core.barrier.sealed = false)
    (hke : s.core.barrier.keyEntry =
      some (.json { type := p521TypeName, x := some x, y := some y, d := some d })) :
    keyStep e s = (none, { s with
      core := { s.core with localClusterPrivateKey := some { x := x, y := y, d := d } } }) := by
  unfold keyStep
  split
  · rename_i k hk
    rw [hk] at hp; cases hp
  · rw [if_neg (by rw [hs]; exact Bool.false_ne_true)]
    split
    · rename_i heq
      rw [hke] at heq; cases heq
    · rename_i t heq
      rw [hke] at heq; cases heq
    · rename_i p heq
      rw [hke] at heq
      cases heq
      simp [p521TypeName]

theorem keyStep_ok_cases (e : Entropy) (s : SetupState)
    (h : (keyStep e s).1 = none) (h0 : s.needNewCert = false) :
    ((keyStep e s).2.needNewCert = true ∧
       s.core.localClusterPrivateKey = none ∧ s.core.barrier.keyEntry = none) ∨
    ((keyStep e s).2.needNewCert = false ∧
       ¬(s.core.localClusterPrivateKey = none ∧ s.core.barrier.keyEntry = none)) := by
  unfold keyStep at *
  split at h
  · rename_i k hk
    right
    refine ⟨h0, ?_⟩
    intro hand
    rw [hk] at hand
    cases hand.1
  · rename_i hpk
    split at h
    · cases h
    · rename_i hnseal
      split at h
      · rename_i hke
        left
        exact ⟨by simp_all, hpk, hke⟩
      · cases h
      · rename_i p hke
        split at h
        · split at h
          · right
            constructor
            · simp_all
            · intro hand
              rw [hke] at hand
              cases hand.2
          · cases h
        · cases h

theorem setupCluster_preserves_ids (c : Core) (e : Entropy) {cl : Cluster} {c1 : Core}
    (hg : c.getCluster = .ok (cl, c1)) (hn : cl.name ≠ "") (hi : cl.id ≠ "") :
    (c.setupCluster e).2.barrier.info = c.barrier.info ∨
    ∃ cert, (c.setupCluster e).2.barrier.info =
      some (.json { name := cl.name, id := cl.id, certificate := cert }) := by
  obtain ⟨hseal, hbar, _, _, _, _⟩ := getCluster_shape hg
  unfold Core.setupCluster
  rw [hg]
  dsimp only
  rw [nameStep_skip e _ hn, idStep_skip e _ hi]
  rcases hk : keyStep e { core := c1, cluster := cl, modified := false, needNewCert := false } with ⟨r1 | err1, s3⟩
  · dsimp only
    rcases hc : certStep e s3 with ⟨r2 | err2, s4⟩
    · dsimp only
      have h5 : s4.cluster.name = cl.name := by
        have ha := certStep_name e s3
        rw [hc] at ha
        dsimp only at ha
        have hb := keyStep_cluster e { core := c1, cluster := cl, modified := false, needNewCert := false }
        rw [hk] at hb
        dsimp only at hb
        rw [ha, hb]
      have h6 : s4.cluster.id = cl.id := by
        have ha := certStep_id e s3
        rw [hc] at ha
        dsimp only at ha
        have hb := keyStep_cluster e { core := c1, cluster := cl, modified := false, needNewCert := false }
        rw [hk] at hb
        dsimp only at hb
        rw [ha, hb]
      by_cases hm : s4.modified = true
      · right
        refine ⟨s4.cluster.certificate, ?_⟩
        unfold persistStep
        rw [if_pos hm]
        show some (InfoBytes.json s4.cluster) =
          some (.json { name := cl.name, id := cl.id, certificate := s4.cluster.certificate })
        rw [← h5, ← h6]
      · left
        unfold persistStep
        rw [if_neg hm]
        have ha := certStep_core e s3
        rw [hc] at ha
        dsimp only at ha
        have hb := keyStep_info e { core := c1, cluster := cl, modified := false, needNewCert := false }
        rw [hk] at hb
        dsimp only at hb
        show s4.core.barrier.info = c.barrier.info
        rw [ha, hb]
        show c1.barrier.info = c.barrier.info
        rw [hbar]
    · dsimp only
      left
      obtain ⟨he4, _⟩ := certStep_error_state e s3 err2 (by rw [hc])
      rw [hc] at he4
      dsimp only at he4
      have hb := keyStep_info e { core := c1, cluster := cl, modified := false, needNewCert := false }
      rw [hk] at hb
      dsimp only at hb
      show s4.core.barrier.info = c.barrier.info
      rw [he4, hb]
      show c1.barrier.info = c.barrier.info
      rw [hbar]
  · dsimp only
    left
    have he3 := keyStep_error_state e { core := c1, cluster := cl, modified := false, needNewCert := false } err1 (by rw [hk])
    rw [hk] at he3
    dsimp only at he3
    show s3.core.barrier.info = c.barrier.info
    rw [he3]
    show c1.barrier.info = c.barrier.info
    rw [hbar]

theorem setupCluster_cert_spec (c : Core) (e : Entropy) {cl : Cluster} {c1 : Core}
    (hg : c.getCluster = .ok (cl, c1)) (h : (c.setupCluster e).1 = none) :
    (((c.localClusterPrivateKey = none ∧ c.barrier.keyEntry = none) ∨ cl.certificate = none) ∧
        c.advertiseAddr ≠ "" →
      infoCert (c.setupCluster e).2.barrier.info = some (.der (mkClusterCert e))) ∧
    (¬(((c.localClusterPrivateKey = none ∧ c.barrier.keyEntry = none) ∨ cl.certificate = none) ∧
        c.advertiseAddr ≠ "") →
      infoCert (c.setupCluster e).2.barrier.info = cl.certificate) := by
  obtain ⟨hseal, hbar, hcn, hpriv, haddr, hshape⟩ := getCluster_shape hg
  unfold Core.setupCluster at h ⊢
  rw [hg] at h ⊢
  dsimp only at h ⊢
  rcases hk : keyStep e (idStep e (nameStep e { core := c1, cluster := cl, modified := false, needNewCert := false })) with ⟨r1 | err1, s3⟩
  · rw [hk] at h
    try dsimp only at h
    try dsimp only
    rcases hc : certStep e s3 with ⟨r2 | err2, s4⟩
    · try dsimp only
      have hcert3 : s3.cluster.certificate = cl.certificate := by
        have hb := keyStep_cluster e (idStep e (nameStep e { core := c1, cluster := cl, modified := false, needNewCert := false }))
        rw [hk] at hb
        dsimp only at hb
        rw [hb, preKey_cert]
      have haddr3 : s3.core.advertiseAddr = c.advertiseAddr := by
        have hb := keyStep_addr e (idStep e (nameStep e { core := c1, cluster := cl, modified := false, needNewCert := false }))
        rw [hk] at hb
        dsimp only at hb
        rw [hb, preKey_core_addr]
        show c1.advertiseAddr = c.advertiseAddr
        rw [haddr]
      have hpk2 : (idStep e (nameStep e { core := c1, cluster := cl, modified := false, needNewCert := false })).core.localClusterPrivateKey = c.localClusterPrivateKey := by
        rw [preKey_core_privKey]
        show c1.localClusterPrivateKey = c.localClusterPrivateKey
        rw [hpriv]
      have hke2 : (idStep e (nameStep e { core := c1, cluster := cl, modified := false, needNewCert := false })).core.barrier.keyEntry = c.barrier.keyEntry := by
        rw [preKey_core_barrier]
        show c1.barrier.keyEntry = c.barrier.keyEntry
        rw [hbar]
      have hkc := keyStep_ok_cases e (idStep e (nameStep e { core := c1, cluster := cl, modified := false, needNewCert := false })) (by rw [hk]) (by rw [preKey_needNewCert])
      rw [hk] at hkc
      dsimp only at hkc
      have hnnc_iff : s3.needNewCert = true ↔
          (c.localClusterPrivateKey = none ∧ c.barrier.keyEntry = none) := by
        constructor
        · intro ht
          rcases hkc with ⟨_, hp0, hk0⟩ | ⟨hf, _⟩
          · rw [hpk2] at hp0
            rw [hke2] at hk0
            exact ⟨hp0, hk0⟩
          · rw [hf] at ht; cases ht
        · intro hx
          rcases hkc with ⟨ht, _, _⟩ | ⟨_, hniff⟩
          · exact ht
          · exact absurd ⟨by rw [hpk2, hx.1], by rw [hke2, hx.2]⟩ hniff
      have hcond_iff : certCond s3 ↔
          (((c.localClusterPrivateKey = none ∧ c.barrier.keyEntry = none) ∨ cl.certificate = none) ∧
            c.advertiseAddr ≠ "") := by
        unfold certCond
        rw [hcert3, haddr3, hnnc_iff]
      have hco := certStep_ok_cert e s3 (by rw [hc])
      rw [hc] at hco
      dsimp only at hco
      constructor
      · intro hG
        have hcond : certCond s3 := hcond_iff.mpr hG
        rcases hco with ⟨hc4, hm4, _⟩ | ⟨_, hncond⟩
        · unfold persistStep
          rw [if_pos hm4]
          show s4.cluster.certificate = some (.der (mkClusterCert e))
          exact hc4
        · exact absurd hcond hncond
      · intro hG
        have hncond : ¬ certCond s3 := fun hx => hG (hcond_iff.mp hx)
        rcases hco with ⟨_, _, hcond⟩ | ⟨heq34, _⟩
        · exact absurd hcond hncond
        · by_cases hm : s4.modified = true
          · unfold persistStep
            rw [if_pos hm]
            show s4.cluster.certificate = cl.certificate
            rw [heq34]
            exact hcert3
          · unfold persistStep
            rw [if_neg hm]
            have hinfo4 : s4.core.barrier.info = c.barrier.info := by
              rw [heq34]
              have hb := keyStep_info e (idStep e (nameStep e { core := c1, cluster := cl, modified := false, needNewCert := false }))
              rw [hk] at hb
              dsimp only at hb
              rw [hb, preKey_core_barrier]
              show c1.barrier.info = c.barrier.info
              rw [hbar]
            show infoCert s4.core.barrier.info = cl.certificate
            rw [hinfo4]
            rcases hshape with ⟨hiN, hclE, _⟩ | ⟨cl0, hiJ, _, hcEq, _, _⟩
            · rw [hiN, hclE]
              rfl
            · rw [hiJ, hcEq]
              rfl
    · obtain ⟨k, hk2⟩ := keyStep_ok_privKey e _ (by rw [hk])
      rw [hk] at hk2
      dsimp only at hk2
      obtain ⟨_, hnone⟩ := certStep_error_state e s3 err2 (by rw [hc])
      rw [hnone] at hk2
      cases hk2
  · rw [hk] at h
    dsimp only at h
    cases h

theorem getCluster_eval_certnone {c : Core} {cl0 : Cluster} (hs : c.barrier.sealed = false)
    (hinfo : c.barrier.info = some (.json cl0)) (hcert : cl0.certificate = none) :
    c.getCluster = .ok ((if c.clusterName ≠ "" then { cl0 with name := c.clusterName } else cl0), c) := by
  obtain ⟨nm0, id0, cert0⟩ := cl0
  dsimp only at hcert
  subst hcert
  unfold Core.getCluster
  rw [if_neg (by rw [hs]; exact Bool.false_ne_true)]
  simp only [hinfo]
  by_cases hov : c.clusterName ≠ ""
  · rw [if_pos hov]
  · rw [if_neg hov]

theorem getCluster_eval_der {c : Core} {cl0 : Cluster} {cd : CertData} (hs : c.barrier.sealed = false)
    (hinfo : c.barrier.info = some (.json cl0)) (hcert : cl0.certificate = some (.der cd)) :
    c.getCluster = .ok ((if c.clusterName ≠ "" then { cl0 with name := c.clusterName } else cl0),
      { c with localClusterCertPool := addCert c.localClusterCertPool cd }) := by
  obtain ⟨nm0, id0, cert0⟩ := cl0
  dsimp only at hcert
  subst hcert
  unfold Core.getCluster
  rw [if_neg (by rw [hs]; exact Bool.false_ne_true)]
  simp only [hinfo]
  by_cases hov : c.clusterName ≠ ""
  · rw [if_pos hov]
  · rw [if_neg hov]

theorem getCluster_err_shape (c : Core) (err : CErr) (h : c.getCluster = .error err) :
    err = .storageUnavailable ∨ err = .decodeFailed ∨ err = .certParseFailed := by
  unfold Core.getCluster at h
  by_cases hs : c.barrier.sealed = true
  · rw [if_pos hs] at h
    injection h with h2
    exact Or.inl h2.symm
  · rw [if_neg hs] at h
    cases hinfo : c.barrier.info with
    | none =>
      rw [hinfo] at h
      simp at h
    | some ib =>
      rw [hinfo] at h
      cases ib with
      | garbage t =>
        dsimp only at h
        injection h with h2
        exact Or.inr (Or.inl h2.symm)
      | json cl =>
        obtain ⟨nm0, id0, cert0⟩ := cl
        dsimp only at h
        by_cases hov : c.clusterName ≠ ""
        · rw [if_pos hov] at h
          cases cert0 with
          | none => simp at h
          | some cb =>
            cases cb with
            | der cd => simp at h
            | garbage t =>
              dsimp only at h
              injection h with h2
              exact Or.inr (Or.inr h2.symm)
        · rw [if_neg hov] at h
          cases cert0 with
          | none => simp at h
          | some cb =>
            cases cb with
            | der cd => simp at h
            | garbage t =>
              dsimp only at h
              injection h with h2
              exact Or.inr (Or.inr h2.symm)

theorem clusterTLSConfig_ne_already (c : Core) :
    c.ClusterTLSConfig ≠ .error CErr.alreadyRunning := by
  intro h
  unfold Core.ClusterTLSConfig at h
  cases hg : c.getCluster with
  | error err2 =>
    rw [hg] at h
    dsimp only at h
    injection h with h2
    rcases getCluster_err_shape c err2 hg with h1 | h1 | h1 <;> (rw [h1] at h2; cases h2)
  | ok p =>
    obtain ⟨cl, c1⟩ := p
    rw [hg] at h
    dsimp only at h
    obtain ⟨nm0, id0, cert0⟩ := cl
    cases cert0 with
    | none =>
      dsimp only at h
      injection h with h2
      cases h2
    | some cb =>
      cases cb with
      | garbage t =>
        dsimp only at h
        injection h with h2
        cases h2
      | der cd =>
        dsimp only at h
        simp at h

theorem startClusterListener_not_already (c : Core)
    (h : c.clusterListenerShutdownCh = false) :
    (c.startClusterListener).1 ≠ some CErr.alreadyRunning := by
  unfold Core.startClusterListener
  rw [if_neg (by rw [h]; exact Bool.false_ne_true)]
  cases hf : c.clusterListenerSetupFunc with
  | none =>
    dsimp only
    intro hx
    injection hx with hx
    cases hx
  | some f =>
    dsimp only
    cases hr : f.result with
    | fail n =>
      dsimp only
      intro hx
      injection hx with hx
      cases hx
    | ready lns hnd =>
      dsimp only
      cases ht : c.ClusterTLSConfig with
      | error err =>
        dsimp only
        intro hx
        injection hx with hx
        exact clusterTLSConfig_ne_already c (hx ▸ ht)
      | ok p =>
        obtain ⟨cfg, c1⟩ := p
        dsimp only
        intro hx
        cases hx

theorem stopClusterListener_flags (c : Core) :
    (c.stopClusterListener).clusterListenerShutdownCh = false ∧
    (c.stopClusterListener).clusterListenerShutdownSuccessCh = false := by
  unfold Core.stopClusterListener
  by_cases h1 : c.clusterListenerShutdownCh = true <;>
    by_cases h2 : c.clusterListenerShutdownSuccessCh = true
  · rw [if_pos h1, if_pos h2]; exact ⟨rfl, rfl⟩
  · rw [if_pos h1, if_neg h2]
    refine ⟨rfl, ?_⟩
    show c.clusterListenerShutdownSuccessCh = false
    simpa using h2
  · rw [if_neg h1, if_pos h2]
    refine ⟨?_, rfl⟩
    show c.clusterListenerShutdownCh = false
    simpa using h1
  · rw [if_neg h1, if_neg h2]
    constructor
    · show c.clusterListenerShutdownCh = false
      simpa using h1
    · show c.clusterListenerShutdownSuccessCh = false
      simpa using h2

/-! ## Claim theorems -/

/-- Claim C5 (confirmed): ForwardRequest returns the CannotForward error if and
only if the active upstream connection is absent or its stored cluster address
is empty; in that case it performs no network I/O (empty wire log) and leaves
the connection state unchanged (the Core is returned untouched in every case),
and otherwise it forwards exactly the re-addressed copy of the request to the
stored cluster address. -/
theorem ForwardRequest_spec (c : Core) (req : Request) :
    ((c.ForwardRequest req).1 = .error CErr.cannotForward ↔
      (c.requestForwardingConnection = none ∨
        ∃ conn, c.requestForwardingConnection = some conn ∧ conn.clusterAddr = "")) ∧
    (c.ForwardRequest req).2.1 = c ∧
    ((c.ForwardRequest req).1 = .error CErr.cannotForward → (c.ForwardRequest req).2.2 = []) ∧
    (∀ conn, c.requestForwardingConnection = some conn → conn.clusterAddr ≠ "" →
      (c.ForwardRequest req).2.2 = [{ original := req, clusterAddr := conn.clusterAddr }] ∧
      (c.ForwardRequest req).1 =
        .ok { servedFor := { original := req, clusterAddr := conn.clusterAddr } }) := by
  unfold Core.ForwardRequest
  cases hcn : c.requestForwardingConnection with
  | none =>
    dsimp only
    refine ⟨⟨fun _ => Or.inl rfl, fun _ => rfl⟩, rfl, fun _ => rfl, ?_⟩
    intro conn hconn
    cases hconn
  | some conn =>
    dsimp only
    by_cases ha : conn.clusterAddr = ""
    · rw [if_pos ha]
      refine ⟨⟨fun _ => Or.inr ⟨conn, rfl, ha⟩, fun _ => rfl⟩, rfl, fun _ => rfl, ?_⟩
      intro conn2 hconn2 hne
      injection hconn2 with hconn2
      subst hconn2
      exact absurd ha hne
    · rw [if_neg ha]
      refine ⟨⟨fun hx => ?_, fun hx => ?_⟩, rfl, fun hx => ?_, ?_⟩
      · cases hx
      · rcases hx with hx | ⟨conn2, hconn2, ha2⟩
        · cases hx
        · injection hconn2 with hconn2
          subst hconn2
          exact absurd ha2 ha
      · cases hx
      · intro conn2 hconn2 _
        injection hconn2 with hconn2
        subst hconn2
        exact ⟨rfl, rfl⟩

/-- Claim C5 witness: at a concrete state with an active connection the request
is forwarded to the stored address. -/
theorem ForwardRequest_spec_witness :
    (witC5.ForwardRequest reqW).2.2 = [{ original := reqW, clusterAddr := "addr-active" }] :=
  ((ForwardRequest_spec witC5 reqW).2.2.2 connW rfl (by decide)).1

/-- Claim C6 (confirmed): refreshRequestForwardingConnection with an address
equal to the current state returns no error and changes nothing; with an empty
requested address and an existing connection holding a different address it
drops the connection; with a non-empty requested address it updates only the
stored address of an existing connection, and creates a connection (from the
TLS config) only when none exists. -/
theorem refreshRequestForwardingConnection_spec (c : Core) (addr : String) :
    ((c.requestForwardingConnection = none ∧ addr = "") →
      c.refreshRequestForwardingConnection addr = (none, c)) ∧
    (∀ conn, c.requestForwardingConnection = some conn → conn.clusterAddr = addr →
      c.refreshRequestForwardingConnection addr = (none, c)) ∧
    (∀ conn, c.requestForwardingConnection = some conn → conn.clusterAddr ≠ addr → addr = "" →
      c.refreshRequestForwardingConnection addr =
        (none, { c with requestForwardingConnection := none })) ∧
    (∀ conn, c.requestForwardingConnection = some conn → conn.clusterAddr ≠ addr → addr ≠ "" →
      c.refreshRequestForwardingConnection addr =
        (none, { c with requestForwardingConnection := some { conn with clusterAddr := addr } })) ∧
    (c.requestForwardingConnection = none → addr ≠ "" →
      (∀ err, c.ClusterTLSConfig = .error err →
        c.refreshRequestForwardingConnection addr = (some err, c)) ∧
      (∀ cfg c1, c.ClusterTLSConfig = .ok (cfg, c1) →
        c.refreshRequestForwardingConnection addr =
          (none, { c1 with
            requestForwardingConnection := some ({ client := cfg, clusterAddr := addr } : ActiveConnection) }))) := by
  unfold Core.refreshRequestForwardingConnection
  cases hcn : c.requestForwardingConnection with
  | none =>
    dsimp only
    refine ⟨fun hx => ?_, fun conn hconn => ?_, fun conn hconn => ?_, fun conn hconn => ?_, ?_⟩
    · rw [if_pos hx.2]
    · cases hconn
    · cases hconn
    · cases hconn
    · intro _ haddr
      rw [if_neg haddr]
      constructor
      · intro err ht
        rw [ht]
      · intro cfg c1 ht
        rw [ht]
  | some conn =>
    dsimp only
    refine ⟨fun hx => ?_, fun conn2 hconn2 heq => ?_, fun conn2 hconn2 hne hemp => ?_,
      fun conn2 hconn2 hne hnemp => ?_, fun hx => ?_⟩
    · cases hx.1
    · injection hconn2 with hconn2
      subst hconn2
      rw [if_pos heq]
    · injection hconn2 with hconn2
      subst hconn2
      rw [if_neg hne, if_pos hemp]
    · injection hconn2 with hconn2
      subst hconn2
      rw [if_neg hne, if_neg hnemp]
    · cases hx

/-- Claim C6 witness: updating an existing connection to a new address reuses
the connection object and changes only its stored address. -/
theorem refreshRequestForwardingConnection_spec_witness :
    witC5.refreshRequestForwardingConnection "addr-new" =
      (none, { witC5 with
        requestForwardingConnection := some ({ connW with clusterAddr := "addr-new" } : ActiveConnection) }) :=
  (refreshRequestForwardingConnection_spec witC5 "addr-new").2.2.2.1 connW rfl
    (by decide) (by decide)

/-- Claim C7 counterexample: in a state where the shutdown channel already
exists and no setup callback is registered, startClusterListener returns
AlreadyRunning, not NotConfigured, so the clause that it fails with a
NotConfigured error whenever no listener-setup callback has been registered is
false as stated. -/
theorem startClusterListener_cex :
    cexC7.clusterListenerSetupFunc = none ∧
    cexC7.startClusterListener = (some CErr.alreadyRunning, cexC7, []) ∧
    CErr.alreadyRunning ≠ CErr.notConfigured := ⟨rfl, rfl, by decide⟩

/-- Claim C7 (corrected): startClusterListener fails with AlreadyRunning
whenever the shutdown channel already exists, and fails with NotConfigured
whenever the shutdown channel does not exist and no listener-setup callback is
registered (the AlreadyRunning check runs first); in either failure case the
Core is unchanged (no channels created) and no serving loop is started. -/
theorem startClusterListener_guards (c : Core) :
    (c.clusterListenerShutdownCh = true →
      c.startClusterListener = (some CErr.alreadyRunning, c, [])) ∧
    (c.clusterListenerShutdownCh = false → c.clusterListenerSetupFunc = none →
      c.startClusterListener = (some CErr.notConfigured, c, [])) := by
  unfold Core.startClusterListener
  constructor
  · intro h1
    rw [if_pos h1]
  · intro h1 h2
    rw [if_neg (by rw [h1]; exact Bool.false_ne_true)]
    rw [h2]

/-- Claim C7 witness: the guards evaluated at a concrete double-start state. -/
theorem startClusterListener_guards_witness :
    cexC7.startClusterListener = (some CErr.alreadyRunning, cexC7, []) :=
  (startClusterListener_guards cexC7).1 rfl

/-- Claim C8 (confirmed): stopClusterListener is a no-op when the listener was
never started (both channels absent); after any completed call both channels
are nil, a subsequent startClusterListener does not fail with AlreadyRunning,
and a full start/stop cycle again leaves both channels nil with the next start
not failing with AlreadyRunning, so the cycle repeats indefinitely. -/
theorem stopClusterListener_spec (c : Core) :
    (c.clusterListenerShutdownCh = false → c.clusterListenerShutdownSuccessCh = false →
      c.stopClusterListener = c) ∧
    (c.stopClusterListener).clusterListenerShutdownCh = false ∧
    (c.stopClusterListener).clusterListenerShutdownSuccessCh = false ∧
    (c.stopClusterListener).startClusterListener.1 ≠ some CErr.alreadyRunning ∧
    (startStopCycle c).clusterListenerShutdownCh = false ∧
    (startStopCycle c).clusterListenerShutdownSuccessCh = false ∧
    (startStopCycle c).startClusterListener.1 ≠ some CErr.alreadyRunning := by
  refine ⟨?_, (stopClusterListener_flags c).1, (stopClusterListener_flags c).2,
    startClusterListener_not_already _ (stopClusterListener_flags c).1,
    (stopClusterListener_flags _).1, (stopClusterListener_flags _).2,
    startClusterListener_not_already _ (stopClusterListener_flags _).1⟩
  intro h1 h2
  unfold Core.stopClusterListener
  rw [if_neg (by rw [h1]; exact Bool.false_ne_true),
    if_neg (by rw [h2]; exact Bool.false_ne_true)]

/-- Claim C8 witness: the no-op clause evaluated at the never-started base
state. -/
theorem stopClusterListener_spec_witness :
    baseCore.stopClusterListener = baseCore :=
  (stopClusterListener_spec baseCore).1 rfl rfl

/-- Claim C2 (confirmed): for every storage state, calling setupCluster twice
in succession (with possibly different randomness, under the modelling
assumption that a generated uuid is never the empty string) leaves byte
identical persisted cluster-info and key records after each call, and the
second call performs no write at all (the write trace is unchanged), so an
unmodified identity is never re-persisted. -/
theorem setupCluster_idempotent (c : Core) (e1 e2 : Entropy) (h1 : e1.clusterID ≠ "") :
    ((c.setupCluster e1).2.setupCluster e2).2.barrier.info =
      (c.setupCluster e1).2.barrier.info ∧
    ((c.setupCluster e1).2.setupCluster e2).2.barrier.keyEntry =
      (c.setupCluster e1).2.barrier.keyEntry ∧
    ((c.setupCluster e1).2.setupCluster e2).2.barrier.trace =
      (c.setupCluster e1).2.barrier.trace := by
  rcases hr1 : (c.setupCluster e1).1 with _ | err
  · have hst := setupCluster_ok_stable c e1 h1 hr1
    have hnoop := setupCluster_stable_noop _ e2 hst
    rw [hnoop.2]
    exact ⟨rfl, rfl, rfl⟩
  · obtain ⟨err2, hr2⟩ := setupCluster_error_repro c e1 e2 err hr1
    have hb2 := setupCluster_error_barrier _ e2 err2 hr2
    rw [hb2]
    exact ⟨rfl, rfl, rfl⟩

/-- Claim C2 witness: idempotence evaluated at the empty base state with two
different entropy values. -/
theorem setupCluster_idempotent_witness :
    ((baseCore.setupCluster entW).2.setupCluster entW2).2.barrier.info =
      (baseCore.setupCluster entW).2.barrier.info :=
  (setupCluster_idempotent baseCore entW entW2 (by decide)).1

/-- Claim C1 counterexample: a persisted record with non-empty name A and
non-empty id x, a configured name override B and a non-empty advertise
address; the next setupCluster call persists the record with name B, so the
stored name changed despite being non-empty, contradicting the claim that no
subsequent call changes the stored name regardless of any configured name
override. -/
theorem setupCluster_identity_cex :
    cexC1.barrier.info = some (.json { name := "A", id := "x", certificate := none }) ∧
    ("A" : String) ≠ "" ∧ ("x" : String) ≠ "" ∧
    (cexC1.setupCluster entW).2.barrier.info =
      some (.json { name := "B", id := "x", certificate := some (.der (mkClusterCert entW)) }) ∧
    ("B" : String) ≠ "A" := by
  refine ⟨rfl, by decide, by decide, by decide, by decide⟩

/-- Claim C1 (corrected): for a persisted record with non-empty name and id,
no call to setupCluster or Cluster ever changes the stored id; the stored name
is also unchanged provided the configured name override is empty or equals the
stored name (a differing non-empty override is the one way the stored name can
change, as the counterexample shows); and Cluster itself never writes to
storage. -/
theorem setupCluster_identity_stability (c : Core) (e : Entropy) (cl0 : Cluster)
    (hinfo : c.barrier.info = some (.json cl0)) (hn : cl0.name ≠ "") (hi : cl0.id ≠ "") :
    (∃ nm cert, (c.setupCluster e).2.barrier.info =
      some (.json { name := nm, id := cl0.id, certificate := cert })) ∧
    (c.clusterName = "" ∨ c.clusterName = cl0.name →
      ∃ cert, (c.setupCluster e).2.barrier.info =
        some (.json { name := cl0.name, id := cl0.id, certificate := cert })) ∧
    (∀ cl2 c2, c.getCluster = .ok (cl2, c2) → c2.barrier = c.barrier) := by
  rcases hr : (c.setupCluster e).1 with _ | err
  · obtain ⟨cl, c1, hg⟩ := setupCluster_ok_getCluster c e hr
    obtain ⟨hseal, hbar, _, _, _, hshape⟩ := getCluster_shape hg
    rcases hshape with ⟨hN, _, _⟩ | ⟨cl0b, hJ, hideq, hceq, hnameeq, _⟩
    · rw [hinfo] at hN
      cases hN
    · rw [hinfo] at hJ
      injection hJ with hJ
      injection hJ with hJ
      subst hJ
      have hn2 : cl.name ≠ "" := by
        rw [hnameeq]
        by_cases hov : c.clusterName = ""
        · rw [if_neg (by simpa using hov)]
          exact hn
        · rw [if_pos (by simpa using hov)]
          exact hov
      have hi2 : cl.id ≠ "" := by
        rw [hideq]
        exact hi
      rcases setupCluster_preserves_ids c e hg hn2 hi2 with hsame | ⟨cert, hrec⟩
      · refine ⟨⟨cl0.name, cl0.certificate, ?_⟩, fun _ => ⟨cl0.certificate, ?_⟩,
          fun cl2 c2 hg2 => (getCluster_shape hg2).2.1⟩ <;>
          (rw [hsame, hinfo])
      · refine ⟨⟨cl.name, cert, ?_⟩, ?_, fun cl2 c2 hg2 => (getCluster_shape hg2).2.1⟩
        · rw [hrec, hideq]
        · intro hov
          have hname : cl.name = cl0.name := by
            rcases hov with hov | hov
            · rw [hnameeq, if_neg (by simpa using hov)]
            · by_cases hov2 : c.clusterName = ""
              · rw [hnameeq, if_neg (by simpa using hov2)]
              · rw [hnameeq, if_pos (by simpa using hov2)]
                exact hov
          refine ⟨cert, ?_⟩
          rw [hrec, hideq, hname]
  · have hb := setupCluster_error_barrier c e err hr
    refine ⟨⟨cl0.name, cl0.certificate, ?_⟩, fun _ => ⟨cl0.certificate, ?_⟩,
      fun cl2 c2 hg2 => (getCluster_shape hg2).2.1⟩ <;>
      (rw [hb, hinfo])

/-- Claim C1 witness: at the counterexample state restricted to an empty
override, the stored name and id are preserved. -/
theorem setupCluster_identity_stability_witness :
    ∃ cert, (({ cexC1 with clusterName := "" }).setupCluster entW).2.barrier.info =
      some (.json { name := "A", id := "x", certificate := cert }) :=
  (setupCluster_identity_stability { cexC1 with clusterName := "" } entW
    { name := "A", id := "x", certificate := none } rfl (by decide) (by decide)).2.1
    (Or.inl rfl)

theorem setupCluster_privKey_eq (c : Core) (e : Entropy) {cl : Cluster} {c1 : Core}
    (hg : c.getCluster = .ok (cl, c1)) :
    (c.setupCluster e).2.localClusterPrivateKey =
      (keyStep e (idStep e (nameStep e
        { core := c1, cluster := cl, modified := false, needNewCert := false }))).2.core.localClusterPrivateKey := by
  unfold Core.setupCluster
  rw [hg]
  dsimp only
  rcases hk : keyStep e (idStep e (nameStep e { core := c1, cluster := cl, modified := false, needNewCert := false })) with ⟨r1 | err1, s3⟩
  · dsimp only
    rcases hc : certStep e s3 with ⟨r2 | err2, s4⟩
    · dsimp only
      rw [persistStep_privKey]
      have h5 := certStep_core e s3
      rw [hc] at h5
      dsimp only at h5
      rw [h5]
    · dsimp only
      obtain ⟨h5, _⟩ := certStep_error_state e s3 err2 (by rw [hc])
      rw [hc] at h5
      dsimp only at h5
      rw [h5]
  · dsimp only

theorem setupCluster_keyEntry_eq (c : Core) (e : Entropy) {cl : Cluster} {c1 : Core}
    (hg : c.getCluster = .ok (cl, c1)) :
    (c.setupCluster e).2.barrier.keyEntry =
      (keyStep e (idStep e (nameStep e
        { core := c1, cluster := cl, modified := false, needNewCert := false }))).2.core.barrier.keyEntry := by
  unfold Core.setupCluster
  rw [hg]
  dsimp only
  rcases hk : keyStep e (idStep e (nameStep e { core := c1, cluster := cl, modified := false, needNewCert := false })) with ⟨r1 | err1, s3⟩
  · dsimp only
    rcases hc : certStep e s3 with ⟨r2 | err2, s4⟩
    · dsimp only
      rw [persistStep_keyEntry]
      have h5 := certStep_core e s3
      rw [hc] at h5
      dsimp only at h5
      rw [h5]
    · dsimp only
      obtain ⟨h5, _⟩ := certStep_error_state e s3 err2 (by rw [hc])
      rw [hc] at h5
      dsimp only at h5
      rw [h5]
  · dsimp only

theorem setupCluster_ok_iff_keyStep (c : Core) (e : Entropy) {cl : Cluster} {c1 : Core}
    (hg : c.getCluster = .ok (cl, c1)) :
    ((c.setupCluster e).1 = none ↔
      (keyStep e (idStep e (nameStep e
        { core := c1, cluster := cl, modified := false, needNewCert := false }))).1 = none) := by
  unfold Core.setupCluster
  rw [hg]
  dsimp only
  rcases hk : keyStep e (idStep e (nameStep e { core := c1, cluster := cl, modified := false, needNewCert := false })) with ⟨r1 | err1, s3⟩
  · dsimp only
    rcases hc : certStep e s3 with ⟨r2 | err2, s4⟩
    · dsimp only
      exact Iff.rfl
    · obtain ⟨k, hk2⟩ := keyStep_ok_privKey e _ (by rw [hk])
      rw [hk] at hk2
      dsimp only at hk2
      obtain ⟨_, hnone⟩ := certStep_error_state e s3 err2 (by rw [hc])
      rw [hnone] at hk2
      cases hk2
  · dsimp only
    exact Iff.rfl

theorem clusterTLSConfig_noIdentity_absent (c : Core) (hs : c.barrier.sealed = false)
    (hinfo : c.barrier.info = none) :
    c.ClusterTLSConfig = .error CErr.noIdentity := by
  unfold Core.ClusterTLSConfig
  rw [getCluster_eval_none hs hinfo]

theorem clusterTLSConfig_noIdentity (c : Core) {cl0 : Cluster}
    (hs : c.barrier.sealed = false) (hinfo : c.barrier.info = some (.json cl0))
    (hcert : cl0.certificate = none) :
    c.ClusterTLSConfig = .error CErr.noIdentity := by
  obtain ⟨nm0, id0, cert0⟩ := cl0
  dsimp only at hcert
  subst hcert
  unfold Core.ClusterTLSConfig
  rw [getCluster_eval_certnone hs hinfo rfl]
  dsimp only
  by_cases hov : c.clusterName ≠ ""
  · rw [if_pos hov]
  · rw [if_neg hov]

/-- Claim C3 (confirmed): a successful setupCluster call generates and
persists a new self-signed certificate exactly when a fresh key was just
generated (no key loaded and no key record stored) or no certificate is
stored, and the configured advertise address is non-empty; the generated
certificate is mkClusterCert e, whose subject common name, issuer common name
(self-signed) and sole DNS name are the freshly generated random host
identifier from the entropy (never the network address, on which mkClusterCert
does not depend), with isCA true, server-auth and client-auth extended
usages, digital-signature, key-encipherment, key-agreement and cert-sign key
usages, and validity from 30 seconds before now to 262980 hours (about 30
years) after now. -/
theorem setupCluster_cert_generation (c : Core) (e : Entropy) (cl : Cluster) (c1 : Core)
    (hg : c.getCluster = .ok (cl, c1)) (h : (c.setupCluster e).1 = none) :
    (((c.localClusterPrivateKey = none ∧ c.barrier.keyEntry = none) ∨ cl.certificate = none) ∧
        c.advertiseAddr ≠ "" →
      infoCert (c.setupCluster e).2.barrier.info = some (.der (mkClusterCert e))) ∧
    (¬(((c.localClusterPrivateKey = none ∧ c.barrier.keyEntry = none) ∨ cl.certificate = none) ∧
        c.advertiseAddr ≠ "") →
      infoCert (c.setupCluster e).2.barrier.info = cl.certificate) ∧
    (mkClusterCert e).subjectCommonName = e.host ∧
    (mkClusterCert e).issuerCommonName = e.host ∧
    (mkClusterCert e).dnsNames = [e.host] ∧
    (mkClusterCert e).isCA = true ∧
    (mkClusterCert e).extKeyUsage = [.serverAuth, .clientAuth] ∧
    (mkClusterCert e).keyUsage = (keyUsageDigitalSignature ||| keyUsageKeyEncipherment |||
      keyUsageKeyAgreement ||| keyUsageCertSign) ∧
    (mkClusterCert e).notBefore = e.now - 30 ∧
    (mkClusterCert e).notAfter = e.now + 262980 * 3600 :=
  ⟨(setupCluster_cert_spec c e hg h).1, (setupCluster_cert_spec c e hg h).2,
    rfl, rfl, rfl, rfl, rfl, rfl, rfl, rfl⟩

/-- Claim C3 witness: at a fresh state with a non-empty advertise address, the
generated certificate is persisted. -/
theorem setupCluster_cert_generation_witness :
    infoCert (witC3.setupCluster entW).2.barrier.info = some (.der (mkClusterCert entW)) :=
  (setupCluster_cert_generation witC3 entW { name := "", id := "", certificate := none }
    witC3 rfl rfl).1 ⟨Or.inl ⟨rfl, rfl⟩, by decide⟩

/-- Claim C9 (confirmed): when the private key is not yet loaded and a
decodable ClusterKeyMaterial record is stored, setupCluster fails with the
InvalidKeyMaterial parse error if any of the stored components X, Y or D is
missing, fails with the InvalidKeyMaterial type error if the algorithm tag is
not p521, and otherwise loads exactly the private key whose components are the
stored X, Y and D, a function of the stored record alone, so every node
reading the same storage obtains the identical private key. -/
theorem setupCluster_key_material (c : Core) (e : Entropy) (p : PrivKeyParams)
    (cl : Cluster) (c1 : Core)
    (hpk : c.localClusterPrivateKey = none)
    (hke : c.barrier.keyEntry = some (.json p))
    (hg : c.getCluster = .ok (cl, c1)) :
    ((p.x = none ∨ p.y = none ∨ p.d = none) →
      (c.setupCluster e).1 = some (.invalidKeyMaterial errKeyParseMsg)) ∧
    (∀ x y d, p.x = some x → p.y = some y → p.d = some d →
      (p.type ≠ p521TypeName →
        (c.setupCluster e).1 = some (.invalidKeyMaterial errKeyTypeMsg)) ∧
      (p.type = p521TypeName →
        (c.setupCluster e).2.localClusterPrivateKey = some { x := x, y := y, d := d })) := by
  obtain ⟨hseal, hbar, _, hpriv, _, _⟩ := getCluster_shape hg
  obtain ⟨ty0, x0, y0, d0⟩ := p
  constructor
  · intro hmiss
    have herr : keyEntryErr c.barrier.keyEntry =
        some (.invalidKeyMaterial errKeyParseMsg) := by
      rw [hke]
      unfold keyEntryErr
      dsimp only at hmiss
      cases x0 with
      | none => rfl
      | some xv =>
        cases y0 with
        | none => rfl
        | some yv =>
          cases d0 with
          | none => rfl
          | some dv =>
            rcases hmiss with hx | hy | hd
            · cases hx
            · cases hy
            · cases hd
    rw [setupCluster_key_error c e (CErr.invalidKeyMaterial errKeyParseMsg) hg hpk herr]
  · intro x y d hx hy hd
    dsimp only at hx hy hd
    subst hx
    subst hy
    subst hd
    constructor
    · intro hty
      dsimp only at hty
      have herr : keyEntryErr c.barrier.keyEntry =
          some (.invalidKeyMaterial errKeyTypeMsg) := by
        rw [hke]
        unfold keyEntryErr
        dsimp only
        rw [if_neg hty]
      rw [setupCluster_key_error c e (CErr.invalidKeyMaterial errKeyTypeMsg) hg hpk herr]
    · intro hty
      dsimp only at hty
      subst hty
      rw [setupCluster_privKey_eq c e hg]
      rw [keyStep_load e _ x y d ?hp ?hs ?hk]
      case hp =>
        rw [preKey_core_privKey]
        show c1.localClusterPrivateKey = none
        rw [hpriv]
        exact hpk
      case hs =>
        rw [preKey_core_barrier]
        show c1.barrier.sealed = false
        rw [hbar]
        exact hseal
      case hk =>
        rw [preKey_core_barrier]
        show c1.barrier.keyEntry =
          some (.json { type := p521TypeName, x := some x, y := some y, d := some d })
        rw [hbar]
        exact hke

/-- Claim C9 witness: valid stored key material is reconstructed into the key
with exactly the stored components. -/
theorem setupCluster_key_material_witness :
    (witC9.setupCluster entW).2.localClusterPrivateKey = some { x := 5, y := 6, d := 7 } :=
  ((setupCluster_key_material witC9 entW goodParams { name := "", id := "", certificate := none }
    witC9 rfl rfl rfl).2 5 6 7 rfl rfl rfl).2 rfl

/-- Claim C10 counterexample: a storage state with no persisted certificate
and an empty advertise address on which setupCluster nevertheless returns an
error, because the stored key material does not decode; the claim as stated
quantifies over every storage state with no persisted certificate. -/
theorem setupCluster_empty_addr_cex :
    infoCert cexC10.barrier.info = none ∧
    cexC10.advertiseAddr = "" ∧
    (cexC10.setupCluster entW).1 = some CErr.decodeFailed :=
  ⟨rfl, rfl, by decide⟩

/-- Claim C10 (corrected): for every unsealed storage state with no persisted
certificate whose identity record decodes and whose stored key material (when
the key is not already loaded) is absent or decodes to valid p521 parameters,
if the configured advertise address is empty then setupCluster returns no
error, the persisted record still has no certificate but carries a non-empty
id and a name that is non-empty unless masked by a non-empty configured
override, fresh key material is persisted when it was needed, and an
immediately following ClusterTLSConfig call fails with NoIdentity. -/
theorem setupCluster_empty_addr (c : Core) (e : Entropy)
    (hs : c.barrier.sealed = false)
    (hinfo : c.barrier.info = none ∨
      ∃ cl0, c.barrier.info = some (.json cl0) ∧ cl0.certificate = none)
    (hkey : (∃ k, c.localClusterPrivateKey = some k) ∨ c.barrier.keyEntry = none ∨
      ∃ x y d, c.barrier.keyEntry =
        some (.json { type := p521TypeName, x := some x, y := some y, d := some d }))
    (haddr : c.advertiseAddr = "")
    (hid : e.clusterID ≠ "") :
    (c.setupCluster e).1 = none ∧
    infoCert (c.setupCluster e).2.barrier.info = none ∧
    (∃ nm id2, (c.setupCluster e).2.barrier.info =
      some (.json { name := nm, id := id2, certificate := none }) ∧
      id2 ≠ "" ∧ ((c.setupCluster e).2.clusterName = "" → nm ≠ "")) ∧
    (c.localClusterPrivateKey = none ∧ c.barrier.keyEntry = none →
      (c.setupCluster e).2.barrier.keyEntry =
        some (.json
          { type := p521TypeName, x := some e.newKey.x, y := some e.newKey.y, d := some e.newKey.d })) ∧
    (c.setupCluster e).2.ClusterTLSConfig = .error CErr.noIdentity := by
  obtain ⟨cl, hg, hclcert⟩ : ∃ cl, c.getCluster = .ok (cl, c) ∧ cl.certificate = none := by
    rcases hinfo with hiN | ⟨cl0, hiJ, hc0⟩
    · exact ⟨_, getCluster_eval_none hs hiN, rfl⟩
    · refine ⟨_, getCluster_eval_certnone hs hiJ hc0, ?_⟩
      split
      · exact hc0
      · exact hc0
  have hpk2 : (idStep e (nameStep e { core := c, cluster := cl, modified := false, needNewCert := false })).core.localClusterPrivateKey = c.localClusterPrivateKey := by
    rw [preKey_core_privKey]
  have hsl2 : (idStep e (nameStep e { core := c, cluster := cl, modified := false, needNewCert := false })).core.barrier.sealed = false := by
    rw [preKey_core_barrier]
    exact hs
  have hke2 : (idStep e (nameStep e { core := c, cluster := cl, modified := false, needNewCert := false })).core.barrier.keyEntry = c.barrier.keyEntry := by
    rw [preKey_core_barrier]
  have hkok : (keyStep e (idStep e (nameStep e { core := c, cluster := cl, modified := false, needNewCert := false }))).1 = none := by
    cases hpk0 : c.localClusterPrivateKey with
    | some k =>
      rw [keyStep_skip e _ k (by rw [hpk2]; exact hpk0)]
    | none =>
      rcases hkey with ⟨k, hcon⟩ | hkN | ⟨x, y, d, hkP⟩
      · rw [hpk0] at hcon; cases hcon
      · rw [keyStep_gen e _ (by rw [hpk2]; exact hpk0) hsl2 (by rw [hke2]; exact hkN)]
      · rw [keyStep_load e _ x y d (by rw [hpk2]; exact hpk0) hsl2 (by rw [hke2]; exact hkP)]
  have hsucc : (c.setupCluster e).1 = none :=
    (setupCluster_ok_iff_keyStep c e hg).mpr hkok
  have hcertnone : infoCert (c.setupCluster e).2.barrier.info = none := by
    have h2 := (setupCluster_cert_spec c e hg hsucc).2
    rw [h2 (fun hx => hx.2 haddr)]
    exact hclcert
  obtain ⟨hsP, _, clP, hinfoP, hnameP, hidP, _, _⟩ := setupCluster_ok_stable c e hid hsucc
  have hcertP : clP.certificate = none := by
    rw [hinfoP] at hcertnone
    exact hcertnone
  refine ⟨hsucc, hcertnone, ⟨clP.name, clP.id, ?_, hidP, hnameP⟩, ?_, ?_⟩
  · rw [hinfoP, ← hcertP]
  · intro hx
    rw [setupCluster_keyEntry_eq c e hg]
    rw [keyStep_gen e _ (by rw [hpk2]; exact hx.1) hsl2 (by rw [hke2]; exact hx.2)]
    rfl
  · exact clusterTLSConfig_noIdentity _ hsP hinfoP hcertP

/-- Claim C10 witness: the amended statement evaluated at the empty base
state. -/
theorem setupCluster_empty_addr_witness :
    (baseCore.setupCluster entW).1 = none ∧
    (baseCore.setupCluster entW).2.ClusterTLSConfig = .error CErr.noIdentity :=
  ⟨(setupCluster_empty_addr baseCore entW rfl (Or.inl rfl) (Or.inr (Or.inl rfl)) rfl
      (by decide)).1,
   (setupCluster_empty_addr baseCore entW rfl (Or.inl rfl) (Or.inr (Or.inl rfl)) rfl
      (by decide)).2.2.2.2⟩

/-- Claim C4 counterexample: a state whose identity record holds a non-empty
but unparseable certificate; ClusterTLSConfig fails with a parse error and
returns no configuration, so the clause that in every state other than
certificate-absent it returns a configuration is false as stated. -/
theorem ClusterTLSConfig_cex :
    (∃ cb, cexC4.barrier.info =
      some (.json { name := "A", id := "x", certificate := some cb })) ∧
    cexC4.ClusterTLSConfig = .error CErr.certParseFailed ∧
    CErr.certParseFailed ≠ CErr.noIdentity :=
  ⟨⟨.garbage 0, rfl⟩, rfl, by decide⟩

/-- Claim C4 (corrected): on an unsealed barrier, ClusterTLSConfig fails with
NoIdentity whenever no certificate is persisted (identity record absent or its
certificate field empty); and whenever the stored record decodes and its
certificate parses, it returns a configuration that presents exactly one
certificate (the stored certificate with the loaded private key), requires and
verifies a client certificate against the trusted pool, uses the same pool as
root CAs and client CAs, sets the server name to the stored certificate's own
common name, and lists h2 as the sole application protocol. -/
theorem ClusterTLSConfig_spec (c : Core) (hs : c.barrier.sealed = false) :
    ((c.barrier.info = none ∨
        ∃ cl0, c.barrier.info = some (.json cl0) ∧ cl0.certificate = none) →
      c.ClusterTLSConfig = .error CErr.noIdentity) ∧
    (∀ cl0 cd, c.barrier.info = some (.json cl0) → cl0.certificate = some (.der cd) →
      c.ClusterTLSConfig = .ok
        ({ certificates := [{ certificateChain := [.der cd], privateKey := c.localClusterPrivateKey }]
           rootCAs := addCert c.localClusterCertPool cd
           serverName := cd.subjectCommonName
           clientAuth := .requireAndVerifyClientCert
           clientCAs := addCert c.localClusterCertPool cd
           nextProtos := ["h2"] },
         { c with localClusterCertPool := addCert c.localClusterCertPool cd })) := by
  constructor
  · intro hx
    rcases hx with hN | ⟨cl0, hJ, hcn⟩
    · exact clusterTLSConfig_noIdentity_absent c hs hN
    · exact clusterTLSConfig_noIdentity c hs hJ hcn
  · intro cl0 cd hJ hcd
    obtain ⟨nm0, id0, cert0⟩ := cl0
    dsimp only at hcd
    subst hcd
    unfold Core.ClusterTLSConfig
    rw [getCluster_eval_der hs hJ rfl]
    dsimp only
    by_cases hov : c.clusterName ≠ ""
    · rw [if_pos hov]
    · rw [if_neg hov]

/-- Claim C4 witness: with no identity record, ClusterTLSConfig fails with
NoIdentity. -/
theorem ClusterTLSConfig_spec_witness :
    baseCore.ClusterTLSConfig = .error CErr.noIdentity :=
  (ClusterTLSConfig_spec baseCore rfl).1 (Or.inl rfl)
